import Mathlib

/-! BridgX — Alibaba Cloud adapter (`pkg/cloud/alibaba/api.go`)

A shallow embedding of the paging, chunking and billing operations of the
Alibaba Cloud provider facade, together with theorems about them.

Modelling conventions

* A Go `error` is a `GoError` (identified by its text); a nil-able error is an
  `Option GoError`.
* A Go pointer `*T` coming from the vendor SDK is an `Option T`; dereferencing
  `none` is a run-time panic (`Outcome.panicked`).
* A Go slice is a `List`; a nil slice and an empty slice are both `[]`.
* `int32` values are `Int`s, with `wrap32` applied after every arithmetic
  operation that the source performs on them; Go `int` is an unbounded `Int`
  where no overflow can be reached.
* The transport client is an external collaborator: it is a parameter
  `Nat → Request → Response × Option GoError`, the `Nat` being the number of
  calls already issued on it by the running operation, so that stateful
  transports (fail on the k-th call, answer differently every time) are covered.
* Every operation returns a `Run`: the list of requests it issued, in order,
  and how it ended.  Unbounded `for { ... }` loops take a step budget and end
  as `Outcome.running` when the budget is used up before the loop exits.
* Logging is an external sink and is left out, except that a nil dereference
  in an argument of a log call is a panic like any other.
* Only the fields of vendor and neutral records that the adapter reads or
  writes are kept.
-/

/-- A Go `error` value, identified by its message text. -/
structure GoError where
  text : String
deriving DecidableEq, Repr

/-- Go `errors.New`. -/
def errorsNew (text : String) : GoError := ⟨text⟩

/-- How a call of an operation ends. -/
inductive Outcome (α : Type) where
  /-- the function returned the value -/
  | ret : α → Outcome α
  /-- a nil pointer was dereferenced -/
  | panicked : Outcome α
  /-- the step budget ran out while the loop was still running -/
  | running : Outcome α
deriving DecidableEq, Repr

/-- The observable behaviour of one operation: requests issued, in order, and the outcome. -/
structure Run (Q α : Type) where
  calls : List Q
  out : Outcome α
deriving DecidableEq, Repr

namespace Run

/-- Prefix a run with one more request issued before it. -/
def after {Q α : Type} (q : Q) (r : Run Q α) : Run Q α := ⟨q :: r.calls, r.out⟩

/-- Prefix a run with a list of requests issued before it. -/
def afterAll {Q α : Type} (qs : List Q) (r : Run Q α) : Run Q α := ⟨qs ++ r.calls, r.out⟩

/-- Post-process the returned value of a run. -/
def mapRet {Q α β : Type} (f : α → β) (r : Run Q α) : Run Q β :=
  ⟨r.calls, match r.out with
    | .ret a => .ret (f a)
    | .panicked => .panicked
    | .running => .running⟩

end Run

/-- Two's-complement wrap-around of Go `int32` arithmetic. -/
def wrap32 (x : Int) : Int := (x + 2147483648) % 4294967296 - 2147483648

/-- Map every record, in order; `none` as soon as one record dereferences nil. -/
def convAll {ρ σ : Type} (f : ρ → Option σ) : List ρ → Option (List σ)
  | [] => some []
  | r :: rs =>
    match f r with
    | none => none
    | some s =>
      match convAll f rs with
      | none => none
      | some ss => some (s :: ss)

/-- Go `tea.StringSliceValue`: a nil element becomes the empty string. -/
def teaStringSliceValue (a : List (Option String)) : List String :=
  a.map (fun s => s.getD "")

/-- What a count-paged loop reads from a response whose body and record list are present. -/
structure Page (ρ : Type) where
  records : List ρ
  TotalCount : Option Int
deriving DecidableEq, Repr

/-- The loop shared verbatim by `DescribeVpcs`, `DescribeSwitches` and
`DescribeSecurityGroups` (api.go 281-313, 373-411, 479-511):

```
for {
  response, err := call(request(page))
  if err != nil { return zero, err }
  if response != nil && Body != nil && Body.List != nil {
    for each record { acc = append(acc, conv(record)) }
    if *Body.TotalCount > page*50 { page++ } else { break }
  }
}
return acc, nil
```
`present` is the triple nil check, `n` the number of calls issued so far. -/
def countPaging {Q R ρ σ : Type} (request : Int → Q) (present : R → Option (Page ρ))
    (conv : ρ → Option σ) (call : Nat → Q → R × Option GoError) :
    Nat → Nat → Int → List σ → Run Q (List σ × Option GoError)
  | 0, _, _, _ => ⟨[], .running⟩
  | fuel + 1, n, page, acc =>
    match (call n (request page)).2 with
    | some err => ⟨[request page], .ret ([], some err)⟩
    | none =>
      match present (call n (request page)).1 with
      | none => (countPaging request present conv call fuel (n + 1) page acc).after (request page)
      | some pg =>
        match convAll conv pg.records with
        | none => ⟨[request page], .panicked⟩
        | some recs =>
          match pg.TotalCount with
          | none => ⟨[request page], .panicked⟩
          | some total =>
            if total > wrap32 (page * 50) then
              (countPaging request present conv call fuel (n + 1) (wrap32 (page + 1))
                (acc ++ recs)).after (request page)
            else ⟨[request page], .ret (acc ++ recs, none)⟩

/-- The k-th call is answered without error, with body and record list present, the record
list mapping to `recs` and the reported total being `N`. -/
def GoodPage {Q R ρ σ : Type} (present : R → Option (Page ρ)) (conv : ρ → Option σ)
    (call : Nat → Q → R × Option GoError) (N : Int) (n : Nat) (q : Q) (recs : List σ) : Prop :=
  (call n q).2 = none ∧
    ∃ pg, present (call n q).1 = some pg ∧ pg.TotalCount = some N ∧
      convAll conv pg.records = some recs

namespace cloud

structure VPC where
  VpcId : String
  VpcName : String
  CidrBlock : String
  SwitchIds : List String
  RegionId : String
  Status : String
  CreateAt : String
deriving DecidableEq, Repr

structure DescribeVpcsRequest where
  RegionId : String
deriving DecidableEq, Repr

structure DescribeVpcsResponse where
  Vpcs : List VPC := []
deriving DecidableEq, Repr

end cloud

namespace vpcClient

structure DescribeVpcsRequest where
  RegionId : String
  PageSize : Int
  PageNumber : Int
deriving DecidableEq, Repr

structure DescribeVpcsResponseBodyVpcsVpcVSwitchIds where
  VSwitchId : List (Option String)
deriving DecidableEq, Repr

structure DescribeVpcsResponseBodyVpcsVpc where
  VpcId : Option String
  VpcName : Option String
  CidrBlock : Option String
  VSwitchIds : Option DescribeVpcsResponseBodyVpcsVpcVSwitchIds
  RegionId : Option String
  Status : Option String
  CreationTime : Option String
deriving DecidableEq, Repr

structure DescribeVpcsResponseBodyVpcs where
  Vpc : List (Option DescribeVpcsResponseBodyVpcsVpc)
deriving DecidableEq, Repr

structure DescribeVpcsResponseBody where
  TotalCount : Option Int
  Vpcs : Option DescribeVpcsResponseBodyVpcs
deriving DecidableEq, Repr

structure DescribeVpcsResponse where
  Body : Option DescribeVpcsResponseBody
deriving DecidableEq, Repr

/-- The `DescribeVpcs` RPC of the transport client. -/
abbrev DescribeVpcsCall :=
  Nat → DescribeVpcsRequest → Option DescribeVpcsResponse × Option GoError

end vpcClient

namespace alibaba

/-- The struct literal `cloud.VPC{ VpcId: *vpc.VpcId, ... }` of api.go 294-302; `none` is a
nil dereference. -/
def DescribeVpcs.conv (vpc : Option vpcClient.DescribeVpcsResponseBodyVpcsVpc) :
    Option cloud.VPC := do
  let vpc ← vpc
  let vpcId ← vpc.VpcId
  let vpcName ← vpc.VpcName
  let cidrBlock ← vpc.CidrBlock
  let vSwitchIds ← vpc.VSwitchIds
  let regionId ← vpc.RegionId
  let status ← vpc.Status
  let creationTime ← vpc.CreationTime
  pure { VpcId := vpcId, VpcName := vpcName, CidrBlock := cidrBlock,
         SwitchIds := teaStringSliceValue vSwitchIds.VSwitchId,
         RegionId := regionId, Status := status, CreateAt := creationTime }

/-- The request of api.go 282-286. -/
def DescribeVpcs.request (req : cloud.DescribeVpcsRequest) (page : Int) :
    vpcClient.DescribeVpcsRequest :=
  { RegionId := req.RegionId, PageSize := 50, PageNumber := page }

/-- The check `response != nil && response.Body != nil && response.Body.Vpcs != nil`. -/
def DescribeVpcs.present (response : Option vpcClient.DescribeVpcsResponse) :
    Option (Page (Option vpcClient.DescribeVpcsResponseBodyVpcsVpc)) := do
  let response ← response
  let body ← response.Body
  let vpcs ← body.Vpcs
  pure ⟨vpcs.Vpc, body.TotalCount⟩

/-- Method `AlibabaCloud.DescribeVpcs` (api.go 278-315), run with a step budget. -/
def DescribeVpcs (fuel : Nat) (call : vpcClient.DescribeVpcsCall)
    (req : cloud.DescribeVpcsRequest) :
    Run vpcClient.DescribeVpcsRequest (cloud.DescribeVpcsResponse × Option GoError) :=
  (countPaging (DescribeVpcs.request req) DescribeVpcs.present DescribeVpcs.conv call
    fuel 0 1 []).mapRet (fun r => ({ Vpcs := r.1 }, r.2))

end alibaba

/-! ## The other count-paged listings: subnets, security groups, images -/

namespace cloud

structure Switch where
  VpcId : String
  SwitchId : String
  Name : String
  IsDefault : Int
  AvailableIpAddressCount : Int
  VStatus : String
  CreateAt : String
  CidrBlock : String
  ZoneId : String
deriving DecidableEq, Repr

structure DescribeSwitchesRequest where
  VpcId : String
deriving DecidableEq, Repr

structure DescribeSwitchesResponse where
  Switches : List Switch := []
deriving DecidableEq, Repr

structure SecurityGroup where
  SecurityGroupId : String
  SecurityGroupType : String
  SecurityGroupName : String
  CreateAt : String
  VpcId : String
  RegionId : String
deriving DecidableEq, Repr

structure DescribeSecurityGroupsRequest where
  RegionId : String
  VpcId : String
deriving DecidableEq, Repr

structure DescribeSecurityGroupsResponse where
  Groups : List SecurityGroup := []
deriving DecidableEq, Repr

structure Image where
  OsType : String
  OsName : String
  ImageId : String
deriving DecidableEq, Repr

structure DescribeImagesRequest where
  RegionId : String
deriving DecidableEq, Repr

structure DescribeImagesResponse where
  Images : List Image := []
deriving DecidableEq, Repr

end cloud

namespace vpcClient

structure DescribeVSwitchesRequest where
  VpcId : String
  PageSize : Int
  PageNumber : Int
deriving DecidableEq, Repr

structure DescribeVSwitchesResponseBodyVSwitchesVSwitch where
  VpcId : Option String
  VSwitchId : Option String
  VSwitchName : Option String
  IsDefault : Option Bool
  AvailableIpAddressCount : Option Int
  Status : Option String
  CreationTime : Option String
  CidrBlock : Option String
  ZoneId : Option String
deriving DecidableEq, Repr

structure DescribeVSwitchesResponseBodyVSwitches where
  VSwitch : List (Option DescribeVSwitchesResponseBodyVSwitchesVSwitch)
deriving DecidableEq, Repr

structure DescribeVSwitchesResponseBody where
  TotalCount : Option Int
  VSwitches : Option DescribeVSwitchesResponseBodyVSwitches
deriving DecidableEq, Repr

structure DescribeVSwitchesResponse where
  Body : Option DescribeVSwitchesResponseBody
deriving DecidableEq, Repr

/-- The `DescribeVSwitches` RPC of the transport client. -/
abbrev DescribeVSwitchesCall :=
  Nat → DescribeVSwitchesRequest → Option DescribeVSwitchesResponse × Option GoError

end vpcClient

namespace ecsClient

structure DescribeSecurityGroupsRequest where
  RegionId : String
  VpcId : String
  PageSize : Int
  PageNumber : Int
deriving DecidableEq, Repr

structure DescribeSecurityGroupsResponseBodySecurityGroupsSecurityGroup where
  SecurityGroupId : Option String
  SecurityGroupType : Option String
  SecurityGroupName : Option String
  CreationTime : Option String
  VpcId : Option String
deriving DecidableEq, Repr

structure DescribeSecurityGroupsResponseBodySecurityGroups where
  SecurityGroup : List (Option DescribeSecurityGroupsResponseBodySecurityGroupsSecurityGroup)
deriving DecidableEq, Repr

structure DescribeSecurityGroupsResponseBody where
  TotalCount : Option Int
  SecurityGroups : Option DescribeSecurityGroupsResponseBodySecurityGroups
deriving DecidableEq, Repr

structure DescribeSecurityGroupsResponse where
  Body : Option DescribeSecurityGroupsResponseBody
deriving DecidableEq, Repr

/-- The `DescribeSecurityGroups` RPC of the transport client. -/
abbrev DescribeSecurityGroupsCall :=
  Nat → DescribeSecurityGroupsRequest → Option DescribeSecurityGroupsResponse × Option GoError

structure DescribeImagesRequest where
  RegionId : String
  PageSize : Int
  PageNumber : Int
deriving DecidableEq, Repr

structure DescribeImagesResponseBodyImagesImage where
  OSType : Option String
  OSName : Option String
  ImageId : Option String
deriving DecidableEq, Repr

structure DescribeImagesResponseBodyImages where
  Image : List (Option DescribeImagesResponseBodyImagesImage)
deriving DecidableEq, Repr

structure DescribeImagesResponseBody where
  TotalCount : Option Int
  Images : Option DescribeImagesResponseBodyImages
deriving DecidableEq, Repr

structure DescribeImagesResponse where
  Body : Option DescribeImagesResponseBody
deriving DecidableEq, Repr

/-- The `DescribeImages` RPC of the transport client. -/
abbrev DescribeImagesCall :=
  Nat → DescribeImagesRequest → Option DescribeImagesResponse × Option GoError

end ecsClient

namespace alibaba

/-- The body of the record loop of `DescribeSwitches` (api.go 386-400): `isDefault` is 1 when
`*vswitch.IsDefault` holds, the flag being dereferenced without a nil check. -/
def DescribeSwitches.conv (vswitch : Option vpcClient.DescribeVSwitchesResponseBodyVSwitchesVSwitch) :
    Option cloud.Switch := do
  let vswitch ← vswitch
  let flag ← vswitch.IsDefault
  let isDefault : Int := if flag then 1 else 0
  let vpcId ← vswitch.VpcId
  let vSwitchId ← vswitch.VSwitchId
  let vSwitchName ← vswitch.VSwitchName
  let count ← vswitch.AvailableIpAddressCount
  let status ← vswitch.Status
  let creationTime ← vswitch.CreationTime
  let cidrBlock ← vswitch.CidrBlock
  let zoneId ← vswitch.ZoneId
  pure { VpcId := vpcId, SwitchId := vSwitchId, Name := vSwitchName, IsDefault := isDefault,
         AvailableIpAddressCount := count, VStatus := status, CreateAt := creationTime,
         CidrBlock := cidrBlock, ZoneId := zoneId }

/-- The request of api.go 374-378. -/
def DescribeSwitches.request (req : cloud.DescribeSwitchesRequest) (page : Int) :
    vpcClient.DescribeVSwitchesRequest :=
  { VpcId := req.VpcId, PageSize := 50, PageNumber := page }

/-- The check `response != nil && response.Body != nil && response.Body.VSwitches != nil`. -/
def DescribeSwitches.present (response : Option vpcClient.DescribeVSwitchesResponse) :
    Option (Page (Option vpcClient.DescribeVSwitchesResponseBodyVSwitchesVSwitch)) := do
  let response ← response
  let body ← response.Body
  let vswitches ← body.VSwitches
  pure ⟨vswitches.VSwitch, body.TotalCount⟩

/-- Method `AlibabaCloud.DescribeSwitches` (api.go 370-413), run with a step budget. -/
def DescribeSwitches (fuel : Nat) (call : vpcClient.DescribeVSwitchesCall)
    (req : cloud.DescribeSwitchesRequest) :
    Run vpcClient.DescribeVSwitchesRequest (cloud.DescribeSwitchesResponse × Option GoError) :=
  (countPaging (DescribeSwitches.request req) DescribeSwitches.present DescribeSwitches.conv
    call fuel 0 1 []).mapRet (fun r => ({ Switches := r.1 }, r.2))

/-- The struct literal of api.go 493-500; `RegionId` is copied from the neutral request. -/
def DescribeSecurityGroups.conv (req : cloud.DescribeSecurityGroupsRequest)
    (group : Option ecsClient.DescribeSecurityGroupsResponseBodySecurityGroupsSecurityGroup) :
    Option cloud.SecurityGroup := do
  let group ← group
  let securityGroupId ← group.SecurityGroupId
  let securityGroupType ← group.SecurityGroupType
  let securityGroupName ← group.SecurityGroupName
  let creationTime ← group.CreationTime
  let vpcId ← group.VpcId
  pure { SecurityGroupId := securityGroupId, SecurityGroupType := securityGroupType,
         SecurityGroupName := securityGroupName, CreateAt := creationTime, VpcId := vpcId,
         RegionId := req.RegionId }

/-- The request of api.go 480-485. -/
def DescribeSecurityGroups.request (req : cloud.DescribeSecurityGroupsRequest) (page : Int) :
    ecsClient.DescribeSecurityGroupsRequest :=
  { RegionId := req.RegionId, VpcId := req.VpcId, PageSize := 50, PageNumber := page }

/-- The check `response != nil && response.Body != nil && response.Body.SecurityGroups != nil`. -/
def DescribeSecurityGroups.present (response : Option ecsClient.DescribeSecurityGroupsResponse) :
    Option (Page (Option ecsClient.DescribeSecurityGroupsResponseBodySecurityGroupsSecurityGroup)) := do
  let response ← response
  let body ← response.Body
  let groups ← body.SecurityGroups
  pure ⟨groups.SecurityGroup, body.TotalCount⟩

/-- Method `AlibabaCloud.DescribeSecurityGroups` (api.go 475-513), run with a step budget. -/
def DescribeSecurityGroups (fuel : Nat) (call : ecsClient.DescribeSecurityGroupsCall)
    (req : cloud.DescribeSecurityGroupsRequest) :
    Run ecsClient.DescribeSecurityGroupsRequest
      (cloud.DescribeSecurityGroupsResponse × Option GoError) :=
  (countPaging (DescribeSecurityGroups.request req) DescribeSecurityGroups.present
    (DescribeSecurityGroups.conv req) call fuel 0 1 []).mapRet
    (fun r => ({ Groups := r.1 }, r.2))

/-- The struct literal of api.go 638-642. -/
def DescribeImages.conv (img : Option ecsClient.DescribeImagesResponseBodyImagesImage) :
    Option cloud.Image := do
  let img ← img
  let osType ← img.OSType
  let osName ← img.OSName
  let imageId ← img.ImageId
  pure { OsType := osType, OsName := osName, ImageId := imageId }

/-- The request of api.go 631-635. -/
def DescribeImages.request (req : cloud.DescribeImagesRequest) (page : Int) :
    ecsClient.DescribeImagesRequest :=
  { RegionId := req.RegionId, PageSize := 50, PageNumber := page }

/-- The check `response != nil && response.Body != nil && response.Body.Images != nil`. -/
def DescribeImages.present (response : Option ecsClient.DescribeImagesResponse) :
    Option (Page (Option ecsClient.DescribeImagesResponseBodyImagesImage)) := do
  let response ← response
  let body ← response.Body
  let images ← body.Images
  pure ⟨images.Image, body.TotalCount⟩

/-- The loop of `DescribeImages` (api.go 630-654).  Unlike the three loops above it has no
`if err != nil { return ... }` in front of the nil checks: the error of a call only reaches
the log line at the bottom of the loop body, after which the loop goes round again. -/
def DescribeImages.loop (call : ecsClient.DescribeImagesCall) (req : cloud.DescribeImagesRequest) :
    Nat → Nat → Int → List cloud.Image →
      Run ecsClient.DescribeImagesRequest (cloud.DescribeImagesResponse × Option GoError)
  | 0, _, _, _ => ⟨[], .running⟩
  | fuel + 1, n, page, images =>
    match DescribeImages.present (call n (DescribeImages.request req page)).1 with
    | none =>
      (DescribeImages.loop call req fuel (n + 1) page images).after
        (DescribeImages.request req page)
    | some pg =>
      match convAll DescribeImages.conv pg.records with
      | none => ⟨[DescribeImages.request req page], .panicked⟩
      | some recs =>
        match pg.TotalCount with
        | none => ⟨[DescribeImages.request req page], .panicked⟩
        | some total =>
          if total > wrap32 (page * 50) then
            (DescribeImages.loop call req fuel (n + 1) (wrap32 (page + 1))
              (images ++ recs)).after (DescribeImages.request req page)
          else ⟨[DescribeImages.request req page], .ret ({ Images := images ++ recs }, none)⟩

/-- Method `AlibabaCloud.DescribeImages` (api.go 627-656), run with a step budget. -/
def DescribeImages (fuel : Nat) (call : ecsClient.DescribeImagesCall)
    (req : cloud.DescribeImagesRequest) :
    Run ecsClient.DescribeImagesRequest (cloud.DescribeImagesResponse × Option GoError) :=
  DescribeImages.loop call req fuel 0 1 []

end alibaba

/-! ## Instances: describe by tag, describe by id, batch delete (old `ecs` SDK) -/

namespace cloud

structure Tag where
  Key : String
  Value : String
deriving DecidableEq, Repr

structure Network where
  VpcId : String
  SubnetId : String
  SecurityGroup : String
  InternetChargeType : String
  InternetMaxBandwidthOut : Int
deriving DecidableEq, Repr

structure Instance where
  Id : String
  CostWay : String
  Provider : String
  IpInner : String
  IpOuter : String
  ImageId : String
  Network : Network
  Status : String
deriving DecidableEq, Repr

end cloud

namespace ecs

structure DescribeInstancesTag where
  Key : String
  Value : String
deriving DecidableEq, Repr

/-- The fields of `ecs.DescribeInstancesRequest` that the adapter sets.  A `requests.Integer`
that was never assigned is `none`. -/
structure DescribeInstancesRequest where
  Scheme : String
  Tag : Option (List DescribeInstancesTag) := none
  InstanceIds : String := ""
  PageSize : Option Int := none
  PageNumber : Option Int := none
deriving DecidableEq, Repr

structure PublicIpAddressInDescribeInstances where
  IpAddress : List String
deriving DecidableEq, Repr

structure PrivateIpAddressInDescribeInstances where
  IpAddress : List String
deriving DecidableEq, Repr

structure VpcAttributes where
  PrivateIpAddress : PrivateIpAddressInDescribeInstances
  VpcId : String
  VSwitchId : String
deriving DecidableEq, Repr

structure SecurityGroupIdsInDescribeInstances where
  SecurityGroupId : List String
deriving DecidableEq, Repr

/-- The fields of `ecs.Instance` that the adapter reads. -/
structure Instance where
  InstanceId : String
  InstanceChargeType : String
  PublicIpAddress : PublicIpAddressInDescribeInstances
  VpcAttributes : VpcAttributes
  ImageId : String
  SecurityGroupIds : SecurityGroupIdsInDescribeInstances
  InternetChargeType : String
  InternetMaxBandwidthOut : Int
  Status : String
deriving DecidableEq, Repr

structure InstancesInDescribeInstances where
  Instance : List Instance
deriving DecidableEq, Repr

structure DescribeInstancesResponse where
  TotalCount : Int
  Instances : InstancesInDescribeInstances
deriving DecidableEq, Repr

/-- The `DescribeInstances` RPC of the transport client. -/
abbrev DescribeInstancesCall :=
  Nat → DescribeInstancesRequest → Option DescribeInstancesResponse × Option GoError

/-- The fields of `ecs.DeleteInstancesRequest` that the adapter sets, and what the SDK keeps
in the request object for the repeated field: `InstanceIdParams` holds, by `N`, the entries
`InstanceId.1`, `InstanceId.2`, ... of the object's `QueryParams` map when the request is
sent.  These entries are the ids that the call carries. -/
structure DeleteInstancesRequest where
  Scheme : String
  RegionId : String
  Force : Bool
  InstanceId : List String
  InstanceIdParams : List String
deriving DecidableEq, Repr

structure DeleteInstancesResponse where
  RequestId : String
deriving DecidableEq, Repr

/-- The `DeleteInstances` RPC of the transport client. -/
abbrev DeleteInstancesCall :=
  Nat → DeleteInstancesRequest → Option DeleteInstancesResponse × Option GoError

end ecs

/-- Go `float64(q)` for an integer `q`, as an integer: exact below `2^53`, otherwise rounded
to a 53-bit significand, nearest value, ties to even. -/
def float64OfInt (q : Int) : Int :=
  let a := q.natAbs
  if a < 2 ^ 53 then q
  else
    let e := Nat.log2 a - 52
    let m := a / 2 ^ e
    let r := a % 2 ^ e
    let m' := if r > 2 ^ (e - 1) ∨ (r = 2 ^ (e - 1) ∧ m % 2 = 1) then m + 1 else m
    q.sign * ((m' * 2 ^ e : Nat) : Int)

namespace utils

/-- Consecutive chunks of `subSize` elements, at most `fuel` of them. -/
def StringSliceSplit.go (subSize : Nat) : Nat → List String → List (List String)
  | 0, _ => []
  | fuel + 1, s =>
    if s = [] then [] else s.take subSize :: StringSliceSplit.go subSize fuel (s.drop subSize)

/-- Modelled from the spec: `utils.StringSliceSplit` lives in `pkg/utils`, which is not among
the sources.  It is the "fixed-size splitter" of §4.3 ("batch-delete and describe-by-id
auto-chunk internally at 50 ids per call via a fixed-size splitter"; "120 ids ... (50,50,20)"):
the ids are cut, in order, into consecutive chunks of `subSize` ids, the last chunk holding
what is left; no ids give no chunk. -/
def StringSliceSplit (s : List String) (subSize : Nat) : List (List String) :=
  StringSliceSplit.go subSize s.length s

end utils

namespace alibaba

/-- The constant `CloudName` (api.go 95-97). -/
def CloudName : String := "AlibabaCloud"

/-- Function `generateInstances` (api.go 69-93). -/
def generateInstances (cloudInstance : List ecs.Instance) : List cloud.Instance :=
  cloudInstance.map fun inst =>
    let ipOuter :=
      if inst.PublicIpAddress.IpAddress.length > 0 then
        inst.PublicIpAddress.IpAddress.headD ""
      else ""
    { Id := inst.InstanceId
      CostWay := inst.InstanceChargeType
      Provider := CloudName
      IpInner := ",".intercalate inst.VpcAttributes.PrivateIpAddress.IpAddress
      IpOuter := ipOuter
      ImageId := inst.ImageId
      Network :=
        { VpcId := inst.VpcAttributes.VpcId
          SubnetId := inst.VpcAttributes.VSwitchId
          SecurityGroup := ",".intercalate inst.SecurityGroupIds.SecurityGroupId
          InternetChargeType := inst.InternetChargeType
          InternetMaxBandwidthOut := inst.InternetMaxBandwidthOut }
      Status := inst.Status }

/-- The loop of `GetInstancesByTags` (api.go 59-64): while `pageNumber < int(maxPage)`,
advance the page, call, append; the error of the latest call replaces the one before. -/
def GetInstancesByTags.loop (call : ecs.DescribeInstancesCall)
    (request : ecs.DescribeInstancesRequest) (maxPage : Int) :
    Nat → Nat → Int → List ecs.Instance → Option GoError →
      Run ecs.DescribeInstancesRequest (List cloud.Instance × Option GoError)
  | 0, _, _, _, _ => ⟨[], .running⟩
  | fuel + 1, n, pageNumber, cloudInstance, err =>
    if pageNumber < maxPage then
      let request' := { request with PageNumber := some (pageNumber + 1) }
      match (call n request').1 with
      | none => ⟨[request'], .panicked⟩
      | some response =>
        (GetInstancesByTags.loop call request maxPage fuel (n + 1) (pageNumber + 1)
          (cloudInstance ++ response.Instances.Instance) (call n request').2).after request'
    else ⟨[], .ret (generateInstances cloudInstance, err)⟩

/-- Method `AlibabaCloud.GetInstancesByTags` (api.go 41-67), run with a step budget for its loop.
`region` is not used by the source.  `maxPage` is
`int(math.Ceil(float64(response.TotalCount / 50)))`, the quotient being Go's truncating
integer division, of which the ceiling is the identity. -/
def GetInstancesByTags (fuel : Nat) (call : ecs.DescribeInstancesCall) (region : String)
    (tags : List cloud.Tag) :
    Run ecs.DescribeInstancesRequest (List cloud.Instance × Option GoError) :=
  let _ := region
  let request : ecs.DescribeInstancesRequest :=
    { Scheme := "https"
      Tag := some (tags.map fun tag => { Key := tag.Key, Value := tag.Value })
      PageSize := some 50 }
  match (call 0 request).1 with
  | none => ⟨[request], .panicked⟩
  | some response =>
    let maxPage := float64OfInt (Int.tdiv response.TotalCount 50)
    (GetInstancesByTags.loop call request maxPage fuel 1 1 response.Instances.Instance
      (call 0 request).2).after request

/-- The loop of `GetInstances` (api.go 166-176) over the id chunks; `marshal` is
`jsoniter.Marshal` on a string slice (an external library, its error is overwritten by the
call's). -/
def GetInstances.loop (marshal : List String → String) (call : ecs.DescribeInstancesCall) :
    List (List String) → Nat → List ecs.Instance → Option GoError →
      Run ecs.DescribeInstancesRequest (List cloud.Instance × Option GoError)
  | [], _, cloudInstance, err => ⟨[], .ret (generateInstances cloudInstance, err)⟩
  | onceIds :: rest, n, cloudInstance, _ =>
    let request : ecs.DescribeInstancesRequest :=
      { Scheme := "https", InstanceIds := marshal onceIds, PageSize := some 50 }
    match (call n request).1 with
    | none => ⟨[request], .panicked⟩
    | some response =>
      (GetInstances.loop marshal call rest (n + 1)
        (cloudInstance ++ response.Instances.Instance) (call n request).2).after request

/-- Method `AlibabaCloud.GetInstances` (api.go 163-179). -/
def GetInstances (marshal : List String → String) (call : ecs.DescribeInstancesCall)
    (ids : List String) :
    Run ecs.DescribeInstancesRequest (List cloud.Instance × Option GoError) :=
  GetInstances.loop marshal call (utils.StringSliceSplit ids 50) 0 [] none

/-- SDK `requests.InitParams` on the repeated field `InstanceId` of a request object whose
`QueryParams` map already holds the entries `held`: sending the request writes
`InstanceId.(m+1)` for every element `m` of the field and removes nothing, so the entries
beyond the length of the field stay as an earlier call left them. -/
def flatRepeatedInstanceId (held onceIds : List String) : List String :=
  onceIds ++ held.drop onceIds.length

/-- The loop of `BatchDelete` (api.go 188-192) over the id chunks: one call per chunk, the
error of the latest call replacing the one before; `response.RequestId` is read for the log
line.  The request object is the one created before the loop (api.go 182-185): each round
only reassigns its field `InstanceId`, and `held` are the `InstanceId.N` entries that the
calls before left in it. -/
def BatchDelete.loop (call : ecs.DeleteInstancesCall) (regionId : String) :
    List (List String) → Nat → List String → Option GoError →
      Run ecs.DeleteInstancesRequest (Option GoError)
  | [], _, _, err => ⟨[], .ret err⟩
  | onceIds :: rest, n, held, _ =>
    let request : ecs.DeleteInstancesRequest :=
      { Scheme := "https", RegionId := regionId, Force := true, InstanceId := onceIds,
        InstanceIdParams := flatRepeatedInstanceId held onceIds }
    match (call n request).1 with
    | none => ⟨[request], .panicked⟩
    | some _ =>
      (BatchDelete.loop call regionId rest (n + 1) (flatRepeatedInstanceId held onceIds)
        (call n request).2).after request

/-- Method `AlibabaCloud.BatchDelete` (api.go 181-194). -/
def BatchDelete (call : ecs.DeleteInstancesCall) (ids : List String) (regionId : String) :
    Run ecs.DeleteInstancesRequest (Option GoError) :=
  BatchDelete.loop call regionId (utils.StringSliceSplit ids 50) 0 [] none

end alibaba

/-! ## Billing: `GetOrders` -/

/-- A Go `time.Time` as an instant: nanoseconds since the Unix epoch. -/
abbrev Time := Int

/-- A Go `float32`, kept as its bit pattern. -/
abbrev Float32Bits := Nat

/-- Go `t.Sub(u)`: the difference as a `time.Duration` (`int64` nanoseconds), saturating at
the smallest and largest duration. -/
def timeSub (t u : Time) : Int :=
  max (-9223372036854775808) (min 9223372036854775807 (t - u))

/-- The test `d.Hours() > 24*365*20` on a duration `d` in nanoseconds.  `Hours()` is the
`float64` sum `float64(d / Hour) + float64(d % Hour) / 3.6e12`, compared with `175200.0`.
The whole hours are exact; next to 175200 two neighbouring `float64` values are `2^-35`
apart, so the sum exceeds 175200 exactly when the whole hours do or, at 175200 whole hours,
when the fraction exceeds `2^-36`, that is from 53 ns on; for durations of whole seconds this
is the exact comparison `d > 175200 h`. -/
def hoursExceedTwentyYears (d : Int) : Bool :=
  decide (d ≥ 175200 * 3600000000000 + 53)

/-- The instant `time.Parse("2006-01-02 15:04:05", "2038-01-01 00:00:00")`:
2038-01-01T00:00:00 UTC, 2145916800 seconds after the epoch. -/
def usageEndSentinel : Time := 2145916800 * 1000000000

namespace cloud

structure GetOrdersRequest where
  StartTime : Time
  EndTime : Time
  PageNum : Int
  PageSize : Int
deriving DecidableEq, Repr

structure Order where
  OrderId : String
  OrderTime : Time
  Product : String
  Quantity : Int
  UsageStartTime : Time
  UsageEndTime : Time
  RegionId : String
  ChargeType : String
  PayStatus : Int
  Currency : String
  Cost : Float32Bits
  /-- Go `map[string]interface{}`; both values stored by the adapter are strings -/
  Extend : List (String × String)
deriving DecidableEq, Repr

structure GetOrdersResponse where
  Orders : List Order := []
deriving DecidableEq, Repr

end cloud

namespace bssopenapi

structure QueryOrdersRequest where
  Scheme : String
  CreateTimeStart : String
  CreateTimeEnd : String
  PageNum : Int
  PageSize : Int
deriving DecidableEq, Repr

structure GetOrderDetailRequest where
  Scheme : String
  OrderId : String
deriving DecidableEq, Repr

/-- The fields of `bssopenapi.Order` that the adapter reads; the struct serves both as a
listed main order and as a sub-order of an order detail. -/
structure Order where
  OrderId : String
  SubOrderId : String := ""
  CreateTime : String := ""
  UsageStartTime : String := ""
  UsageEndTime : String := ""
  SubscriptionType : String := ""
  ProductCode : String := ""
  Quantity : String := ""
  Region : String := ""
  PaymentStatus : String := ""
  Currency : String := ""
  PretaxAmount : String := ""
  OrderType : String := ""
deriving DecidableEq, Repr

structure OrderList where
  Order : List Order
deriving DecidableEq, Repr

structure Data where
  OrderList : OrderList
deriving DecidableEq, Repr

structure QueryOrdersResponse where
  Success : Bool
  Message : String
  Data : Data
deriving DecidableEq, Repr

structure GetOrderDetailResponse where
  Success : Bool
  Message : String
  Data : Data
deriving DecidableEq, Repr

/-- The billing transport client: `QueryOrders` is called once per operation,
`GetOrderDetail` is given the number of detail calls issued before. -/
structure Client where
  QueryOrders : QueryOrdersRequest → Option QueryOrdersResponse × Option GoError
  GetOrderDetail : Nat → GetOrderDetailRequest → Option GetOrderDetailResponse × Option GoError

/-- A request issued on the billing client. -/
inductive Request where
  | queryOrders : QueryOrdersRequest → Request
  | getOrderDetail : GetOrderDetailRequest → Request
deriving DecidableEq, Repr

end bssopenapi

namespace alibaba

/-- What `GetOrders` uses and `src/` does not hold: the library routines `time.Format`,
`time.Parse` (its error is dropped by the source), `cast.ToInt32`, `cast.ToFloat32`, the
string constants `PostPaid`, `PayAsYouGo`, `Paid`, `Unpaid`, `Cancelled` of package `alibaba`
and the values of `internal/constants` that the maps `ChargeType` and `PayStatus` give them. -/
structure OrderEnv where
  timeFormat : Time → String → String
  timeParse : String → String → Time
  castToInt32 : String → Int
  castToFloat32 : String → Float32Bits
  PostPaid : String
  PayAsYouGo : String
  Paid : String
  Unpaid : String
  Cancelled : String
  constantsPostPaid : String
  constantsPayAsYouGo : String
  constantsPaid : Int
  constantsUnpaid : Int
  constantsCancelled : Int

/-- The map `ChargeType` (api.go 706-709), as its literal. -/
def ChargeType (env : OrderEnv) : List (String × String) :=
  [(env.PostPaid, env.constantsPostPaid), (env.PayAsYouGo, env.constantsPayAsYouGo)]

/-- The map `PayStatus` (api.go 710-714), as its literal. -/
def PayStatus (env : OrderEnv) : List (String × Int) :=
  [(env.Paid, env.constantsPaid), (env.Unpaid, env.constantsUnpaid),
    (env.Cancelled, env.constantsCancelled)]

/-- The body of the sub-order loop of `GetOrders` (api.go 752-775): one neutral order per
sub-order.  A key missing from a Go map reads as the zero value. -/
def GetOrders.conv (env : OrderEnv) (subOrder : bssopenapi.Order) : cloud.Order :=
  let orderTime := env.timeParse "2006-01-02T15:04:05Z" subOrder.CreateTime
  let usageStartTime := env.timeParse "2006-01-02T15:04:05Z" subOrder.UsageStartTime
  let usageEndTime := env.timeParse "2006-01-02T15:04:05Z" subOrder.UsageEndTime
  let usageEndTime :=
    if subOrder.SubscriptionType = env.PayAsYouGo ∧
        hoursExceedTwentyYears (timeSub usageEndTime usageStartTime) = true then
      usageEndSentinel
    else usageEndTime
  { OrderId := subOrder.SubOrderId
    OrderTime := orderTime
    Product := subOrder.ProductCode
    Quantity := env.castToInt32 subOrder.Quantity
    UsageStartTime := usageStartTime
    UsageEndTime := usageEndTime
    RegionId := subOrder.Region
    ChargeType := ((ChargeType env).lookup subOrder.SubscriptionType).getD ""
    PayStatus := ((PayStatus env).lookup subOrder.PaymentStatus).getD 0
    Currency := subOrder.Currency
    Cost := env.castToFloat32 subOrder.PretaxAmount
    Extend := [("main_order_id", subOrder.OrderId), ("order_type", subOrder.OrderType)] }

/-- The request of one detail call (api.go 736-739). -/
def GetOrders.detailReq (row : bssopenapi.Order) : bssopenapi.GetOrderDetailRequest :=
  { Scheme := "https", OrderId := row.OrderId }

/-- The loop of `GetOrders` over the listed orders (api.go 738-777); `n` counts the detail
calls issued so far. -/
def GetOrders.loop (env : OrderEnv) (client : bssopenapi.Client) :
    List bssopenapi.Order → Nat → List cloud.Order →
      Run bssopenapi.Request (cloud.GetOrdersResponse × Option GoError)
  | [], _, orders => ⟨[], .ret ({ Orders := orders }, none)⟩
  | row :: rest, n, orders =>
    match client.GetOrderDetail n (GetOrders.detailReq row) with
    | (_, some err) => ⟨[.getOrderDetail (GetOrders.detailReq row)], .ret ({}, some err)⟩
    | (none, none) => ⟨[.getOrderDetail (GetOrders.detailReq row)], .panicked⟩
    | (some detailRsp, none) =>
      if !detailRsp.Success then
        ⟨[.getOrderDetail (GetOrders.detailReq row)],
          .ret ({}, some (errorsNew detailRsp.Message))⟩
      else if detailRsp.Data.OrderList.Order.length = 0 then
        (GetOrders.loop env client rest (n + 1) orders).after
          (.getOrderDetail (GetOrders.detailReq row))
      else
        (GetOrders.loop env client rest (n + 1)
          (orders ++ detailRsp.Data.OrderList.Order.map (GetOrders.conv env))).after
          (.getOrderDetail (GetOrders.detailReq row))

/-- The list request of api.go 717-722. -/
def GetOrders.request (env : OrderEnv) (req : cloud.GetOrdersRequest) :
    bssopenapi.QueryOrdersRequest :=
  { Scheme := "https"
    CreateTimeStart := env.timeFormat req.StartTime "2006-01-02T15:04:05Z"
    CreateTimeEnd := env.timeFormat req.EndTime "2006-01-02T15:04:05Z"
    PageNum := req.PageNum
    PageSize := req.PageSize }

/-- Method `AlibabaCloud.GetOrders` (api.go 716-779).  The capacity hint
`orderNum*SubOrderNumPerMain` of the result slice does not show in the result. -/
def GetOrders (env : OrderEnv) (client : bssopenapi.Client) (req : cloud.GetOrdersRequest) :
    Run bssopenapi.Request (cloud.GetOrdersResponse × Option GoError) :=
  match client.QueryOrders (GetOrders.request env req) with
  | (_, some err) => ⟨[.queryOrders (GetOrders.request env req)], .ret ({}, some err)⟩
  | (none, none) => ⟨[.queryOrders (GetOrders.request env req)], .panicked⟩
  | (some response, none) =>
    if !response.Success then
      ⟨[.queryOrders (GetOrders.request env req)], .ret ({}, some (errorsNew response.Message))⟩
    else if response.Data.OrderList.Order.length = 0 then
      ⟨[.queryOrders (GetOrders.request env req)], .ret ({}, none)⟩
    else
      (GetOrders.loop env client response.Data.OrderList.Order 0 []).after
        (.queryOrders (GetOrders.request env req))

end alibaba

namespace alibaba

/-- The error that an answer to `GetOrderDetail` makes `GetOrders` return with, if any: the
transport error, or else the vendor message of an answer with `Success = false`. -/
def GetOrders.failure (r : Option bssopenapi.GetOrderDetailResponse × Option GoError) :
    Option GoError :=
  match r with
  | (_, some err) => some err
  | (some rsp, none) => if !rsp.Success then some (errorsNew rsp.Message) else none
  | (none, none) => none

end alibaba

/-! ## Concrete transports used to exercise the operations -/

namespace Example

/-- A fully populated vendor VPC record. -/
def vpcRecord (i : Nat) : Option vpcClient.DescribeVpcsResponseBodyVpcsVpc :=
  some { VpcId := some (toString i), VpcName := some "vpc", CidrBlock := some "10.0.0.0/8",
         VSwitchIds := some ⟨[some "vsw-1", none]⟩, RegionId := some "cn-beijing",
         Status := some "Available", CreationTime := some "2021-11-01T00:00:00Z" }

/-- The neutral VPC that `vpcRecord i` maps to. -/
def vpcMapped (i : Nat) : cloud.VPC :=
  { VpcId := toString i, VpcName := "vpc", CidrBlock := "10.0.0.0/8",
    SwitchIds := ["vsw-1", ""], RegionId := "cn-beijing",
    Status := "Available", CreateAt := "2021-11-01T00:00:00Z" }

/-- Records `50*i .. 50*i + 49` of a listing of `N` records (fewer on the last page). -/
def vpcPage (N i : Nat) : List (Option vpcClient.DescribeVpcsResponseBodyVpcsVpc) :=
  (List.range (min 50 (N - 50 * i))).map (fun j => vpcRecord (50 * i + j))

/-- The mapped records of `vpcPage N i`. -/
def vpcPageMapped (N i : Nat) : List cloud.VPC :=
  (List.range (min 50 (N - 50 * i))).map (fun j => vpcMapped (50 * i + j))

/-- A vendor holding `N` VPCs that serves the page the k-th call is due. -/
def vpcServer (N : Nat) : vpcClient.DescribeVpcsCall :=
  fun n _ => (some ⟨some ⟨some (N : Int), some ⟨vpcPage N n⟩⟩⟩, none)

/-- A vendor that always reports the largest `int32` total, with an empty record list. -/
def vpcServerMaxInt32 : vpcClient.DescribeVpcsCall :=
  fun _ _ => (some ⟨some ⟨some 2147483647, some ⟨[]⟩⟩⟩, none)

end Example

namespace Example

/-- A vendor instance with three private addresses and no public one. -/
def instanceRecord (i : Nat) : ecs.Instance :=
  { InstanceId := "i-" ++ toString i, InstanceChargeType := "PostPaid",
    PublicIpAddress := ⟨[]⟩,
    VpcAttributes := ⟨⟨["10.0.0.1", "10.0.0.2", "10.0.0.3"]⟩, "vpc-1", "vsw-1"⟩,
    ImageId := "img", SecurityGroupIds := ⟨["sg-1", "sg-2"]⟩, InternetChargeType := "",
    InternetMaxBandwidthOut := 0, Status := "Running" }

/-- Page `page` (counted from 1) of a listing of `N` instances, 50 to a page. -/
def instancePage (N page : Nat) : List ecs.Instance :=
  (List.range (min 50 (N - 50 * (page - 1)))).map (fun j => instanceRecord (50 * (page - 1) + j))

/-- A vendor holding `N` instances: it serves the page asked for (page 1 when the request
names none) and reports `TotalCount = N`. -/
def instanceServer (N : Nat) : ecs.DescribeInstancesCall :=
  fun _ q => (some ⟨N, ⟨instancePage N ((q.PageNumber.getD 1).toNat)⟩⟩, none)

end Example

namespace Example

/-- The VPC vendor of `vpcServer 120`, except that its second call fails. -/
def vpcServerFailingSecond : vpcClient.DescribeVpcsCall :=
  fun n q => if n = 1 then (some ⟨none⟩, some ⟨"Throttling"⟩) else vpcServer 120 n q

/-- A subnet vendor whose every call fails. -/
def switchServerFailing : vpcClient.DescribeVSwitchesCall :=
  fun _ _ => (some ⟨none⟩, some ⟨"Throttling"⟩)

/-- A security-group vendor whose every call fails. -/
def groupServerFailing : ecsClient.DescribeSecurityGroupsCall :=
  fun _ _ => (some ⟨none⟩, some ⟨"Throttling"⟩)

/-- An image vendor holding one image whose first call fails (empty response, body absent,
error set, as the v2 SDK answers a failed call) and whose later calls succeed. -/
def imageServerFailingFirst : ecsClient.DescribeImagesCall :=
  fun n _ =>
    if n = 0 then (some ⟨none⟩, some ⟨"Throttling"⟩)
    else (some ⟨some ⟨some 1, some ⟨[some ⟨some "linux", some "CentOS", some "m-1"⟩]⟩⟩⟩, none)

/-- The ids `"0", "1", ..., "n-1"`. -/
def ids (n : Nat) : List String := (List.range n).map toString

/-- An instance vendor whose first call fails (empty response and the error, as the SDK
answers a failed call) and whose later calls return one instance each. -/
def instanceServerFailingFirst : ecs.DescribeInstancesCall :=
  fun n _ =>
    if n = 0 then (some ⟨0, ⟨[]⟩⟩, some ⟨"Throttling"⟩)
    else (some ⟨1, ⟨[instanceRecord n]⟩⟩, none)

/-- A delete endpoint that always succeeds. -/
def deleteServer : ecs.DeleteInstancesCall :=
  fun _ _ => (some ⟨"request-id"⟩, none)

/-- A delete endpoint whose second call fails and whose other calls succeed. -/
def deleteServerFailingSecond : ecs.DeleteInstancesCall :=
  fun n _ => if n = 1 then (some ⟨""⟩, some ⟨"Throttling"⟩) else (some ⟨"request-id"⟩, none)

end Example

namespace Example

/-- Library routines and constants for exercising `GetOrders`: timestamps are read as a plain
number of seconds, amounts as plain numbers. -/
def orderEnv : alibaba.OrderEnv :=
  { timeFormat := fun t _ => toString t
    timeParse := fun _ v => (v.toInt?.getD 0) * 1000000000
    castToInt32 := fun v => v.toInt?.getD 0
    castToFloat32 := fun v => v.toNat?.getD 0
    PostPaid := "PostPaid"
    PayAsYouGo := "PayAsYouGo"
    Paid := "Paid"
    Unpaid := "Unpaid"
    Cancelled := "Cancelled"
    constantsPostPaid := "PostPaid"
    constantsPayAsYouGo := "PayAsYouGo"
    constantsPaid := 1
    constantsUnpaid := 2
    constantsCancelled := 3 }

/-- A billing query. -/
def orderQuery : cloud.GetOrdersRequest := ⟨0, 86400000000000, 1, 20⟩

/-- Two listed main orders. -/
def listedOrders : List bssopenapi.Order := [{ OrderId := "main-1" }, { OrderId := "main-2" }]

/-- The sub-orders of a main order: two for `main-1`, one for any other. -/
def subOrders (mainId : String) : List bssopenapi.Order :=
  if mainId = "main-1" then
    [{ OrderId := mainId, SubOrderId := "sub-1a", SubscriptionType := "PayAsYouGo" },
     { OrderId := mainId, SubOrderId := "sub-1b", SubscriptionType := "Subscription" }]
  else [{ OrderId := mainId, SubOrderId := "sub-2a", SubscriptionType := "PayAsYouGo" }]

/-- A billing vendor listing `listedOrders` and answering every detail call. -/
def billingServer : bssopenapi.Client :=
  { QueryOrders := fun _ => (some ⟨true, "", ⟨⟨listedOrders⟩⟩⟩, none)
    GetOrderDetail := fun _ q => (some ⟨true, "", ⟨⟨subOrders q.OrderId⟩⟩⟩, none) }

/-- The billing vendor whose second detail call fails in transport. -/
def billingServerFailingSecond : bssopenapi.Client :=
  { billingServer with
    GetOrderDetail := fun n q =>
      if n = 1 then (some ⟨false, "", ⟨⟨[]⟩⟩⟩, some ⟨"Throttling"⟩)
      else billingServer.GetOrderDetail n q }

/-- The billing vendor whose second detail call is refused by the vendor
(`Success = false`). -/
def billingServerRefusingSecond : bssopenapi.Client :=
  { billingServer with
    GetOrderDetail := fun n q =>
      if n = 1 then (some ⟨false, "order not found", ⟨⟨[]⟩⟩⟩, none)
      else billingServer.GetOrderDetail n q }

/-- The billing vendor refusing the list call (`Success = false`). -/
def billingServerRefusingList : bssopenapi.Client :=
  { billingServer with
    QueryOrders := fun _ => (some ⟨false, "not authorized", ⟨⟨[]⟩⟩⟩, none) }

end Example

/-! ## Security-group rules: `DescribeGroupRules` -/

namespace cloud

structure SecurityGroupRule where
  VpcId : String
  SecurityGroupId : String
  PortRange : String
  Protocol : String
  Direction : String
  GroupId : String
  CidrIp : String
  PrefixListId : String
  CreateAt : String
deriving DecidableEq, Repr

structure DescribeGroupRulesRequest where
  RegionId : String
  SecurityGroupId : String
deriving DecidableEq, Repr

structure DescribeGroupRulesResponse where
  Rules : List SecurityGroupRule := []
deriving DecidableEq, Repr

end cloud

namespace ecsClient

structure DescribeSecurityGroupAttributeRequest where
  RegionId : String
  SecurityGroupId : String
deriving DecidableEq, Repr

structure DescribeSecurityGroupAttributeResponseBodyPermissionsPermission where
  Direction : Option String
  SourceGroupId : Option String
  SourceCidrIp : Option String
  SourcePrefixListId : Option String
  DestGroupId : Option String
  DestCidrIp : Option String
  DestPrefixListId : Option String
  PortRange : Option String
  IpProtocol : Option String
  CreateTime : Option String
deriving DecidableEq, Repr

structure DescribeSecurityGroupAttributeResponseBodyPermissions where
  Permission : List (Option DescribeSecurityGroupAttributeResponseBodyPermissionsPermission)
deriving DecidableEq, Repr

structure DescribeSecurityGroupAttributeResponseBody where
  VpcId : Option String
  SecurityGroupId : Option String
  Permissions : Option DescribeSecurityGroupAttributeResponseBodyPermissions
deriving DecidableEq, Repr

structure DescribeSecurityGroupAttributeResponse where
  Body : Option DescribeSecurityGroupAttributeResponseBody
deriving DecidableEq, Repr

/-- The `DescribeSecurityGroupAttribute` RPC of the transport client (called once). -/
abbrev DescribeSecurityGroupAttributeCall :=
  DescribeSecurityGroupAttributeRequest →
    Option DescribeSecurityGroupAttributeResponse × Option GoError

end ecsClient

namespace alibaba

/-- The constant `DirectionIn` (api.go 27). -/
def DirectionIn : String := "ingress"

/-- The constant `DirectionOut` (api.go 28). -/
def DirectionOut : String := "egress"

/-- The body of the rule loop of `DescribeGroupRules` (api.go 675-696): the `switch` on
`*rule.Direction` picks the source-side or the destination-side peer fields and has no
default case; every pointer is dereferenced without a nil check (`none` is the panic). -/
def DescribeGroupRules.conv (body : ecsClient.DescribeSecurityGroupAttributeResponseBody)
    (rule : Option ecsClient.DescribeSecurityGroupAttributeResponseBodyPermissionsPermission) :
    Option cloud.SecurityGroupRule := do
  let rule ← rule
  let direction ← rule.Direction
  let peer : String × String × String ←
    if direction = DirectionIn then do
      let otherGroupId ← rule.SourceGroupId
      let cidrIp ← rule.SourceCidrIp
      let prefixListId ← rule.SourcePrefixListId
      pure (otherGroupId, cidrIp, prefixListId)
    else if direction = DirectionOut then do
      let otherGroupId ← rule.DestGroupId
      let cidrIp ← rule.DestCidrIp
      let prefixListId ← rule.DestPrefixListId
      pure (otherGroupId, cidrIp, prefixListId)
    else pure ("", "", "")
  let vpcId ← body.VpcId
  let securityGroupId ← body.SecurityGroupId
  let portRange ← rule.PortRange
  let ipProtocol ← rule.IpProtocol
  let createTime ← rule.CreateTime
  pure { VpcId := vpcId, SecurityGroupId := securityGroupId, PortRange := portRange,
         Protocol := ipProtocol, Direction := direction, GroupId := peer.1, CidrIp := peer.2.1,
         PrefixListId := peer.2.2, CreateAt := createTime }

/-- The request of api.go 664-667. -/
def DescribeGroupRules.request (req : cloud.DescribeGroupRulesRequest) :
    ecsClient.DescribeSecurityGroupAttributeRequest :=
  { RegionId := req.RegionId, SecurityGroupId := req.SecurityGroupId }

/-- The check `response != nil && response.Body != nil && response.Body.Permissions != nil`,
giving the body and its permission records. -/
def DescribeGroupRules.present (response : Option ecsClient.DescribeSecurityGroupAttributeResponse) :
    Option (ecsClient.DescribeSecurityGroupAttributeResponseBody ×
      List (Option ecsClient.DescribeSecurityGroupAttributeResponseBodyPermissionsPermission)) := do
  let response ← response
  let body ← response.Body
  let permissions ← body.Permissions
  pure (body, permissions.Permission)

/-- Method `AlibabaCloud.DescribeGroupRules` (api.go 662-704). -/
def DescribeGroupRules (call : ecsClient.DescribeSecurityGroupAttributeCall)
    (req : cloud.DescribeGroupRulesRequest) :
    Run ecsClient.DescribeSecurityGroupAttributeRequest
      (cloud.DescribeGroupRulesResponse × Option GoError) :=
  match (call (DescribeGroupRules.request req)).2 with
  | some err => ⟨[DescribeGroupRules.request req], .ret ({}, some err)⟩
  | none =>
    match DescribeGroupRules.present (call (DescribeGroupRules.request req)).1 with
    | none => ⟨[DescribeGroupRules.request req], .ret ({ Rules := [] }, none)⟩
    | some (body, permission) =>
      match convAll (DescribeGroupRules.conv body) permission with
      | none => ⟨[DescribeGroupRules.request req], .panicked⟩
      | some rules => ⟨[DescribeGroupRules.request req], .ret ({ Rules := rules }, none)⟩

end alibaba

/-! ## One subnet: `GetSwitch` -/

namespace cloud

structure GetSwitchRequest where
  SwitchId : String
deriving DecidableEq, Repr

/-- Response of `GetSwitch`; the zero value holds the zero `Switch`. -/
structure GetSwitchResponse where
  Switch : Switch := ⟨"", "", "", 0, 0, "", "", "", ""⟩
deriving DecidableEq, Repr

end cloud

namespace vpcClient

structure DescribeVSwitchAttributesRequest where
  VSwitchId : String
deriving DecidableEq, Repr

structure DescribeVSwitchAttributesResponseBody where
  IsDefault : Option Bool
  VpcId : Option String
  VSwitchId : Option String
  VSwitchName : Option String
  AvailableIpAddressCount : Option Int
  Status : Option String
  CreationTime : Option String
  CidrBlock : Option String
deriving DecidableEq, Repr

structure DescribeVSwitchAttributesResponse where
  Body : Option DescribeVSwitchAttributesResponseBody
deriving DecidableEq, Repr

/-- The `DescribeVSwitchAttributes` RPC of the transport client (called once). -/
abbrev DescribeVSwitchAttributesCall :=
  DescribeVSwitchAttributesRequest → Option DescribeVSwitchAttributesResponse × Option GoError

end vpcClient

namespace alibaba

/-- The mapping of api.go 350-364: `isDefault` is 1 when `*response.Body.IsDefault` holds,
the flag being dereferenced without a nil check; `ZoneId` is left at its zero value. -/
def GetSwitch.conv (body : vpcClient.DescribeVSwitchAttributesResponseBody) :
    Option cloud.Switch := do
  let flag ← body.IsDefault
  let isDefault : Int := if flag then 1 else 0
  let vpcId ← body.VpcId
  let vSwitchId ← body.VSwitchId
  let vSwitchName ← body.VSwitchName
  let count ← body.AvailableIpAddressCount
  let status ← body.Status
  let creationTime ← body.CreationTime
  let cidrBlock ← body.CidrBlock
  pure { VpcId := vpcId, SwitchId := vSwitchId, Name := vSwitchName, IsDefault := isDefault,
         AvailableIpAddressCount := count, VStatus := status, CreateAt := creationTime,
         CidrBlock := cidrBlock, ZoneId := "" }

/-- Method `AlibabaCloud.GetSwitch` (api.go 340-368). -/
def GetSwitch (call : vpcClient.DescribeVSwitchAttributesCall) (req : cloud.GetSwitchRequest) :
    Run vpcClient.DescribeVSwitchAttributesRequest (cloud.GetSwitchResponse × Option GoError) :=
  match (call ⟨req.SwitchId⟩).2 with
  | some err => ⟨[⟨req.SwitchId⟩], .ret ({}, some err)⟩
  | none =>
    match (call ⟨req.SwitchId⟩).1 with
    | none => ⟨[⟨req.SwitchId⟩], .ret ({}, none)⟩
    | some response =>
      match response.Body with
      | none => ⟨[⟨req.SwitchId⟩], .ret ({}, none)⟩
      | some body =>
        match GetSwitch.conv body with
        | none => ⟨[⟨req.SwitchId⟩], .panicked⟩
        | some switch => ⟨[⟨req.SwitchId⟩], .ret ({ Switch := switch }, none)⟩

end alibaba

/-! ## Batch create: `BatchCreate` -/

namespace cloud

structure DiskConf where
  Category : String
  Size : Int
  PerformanceLevel : String
deriving DecidableEq, Repr

structure Disks where
  SystemDisk : DiskConf
  DataDisk : List DiskConf
deriving DecidableEq, Repr

/-- The fields of `cloud.Params` that `BatchCreate` reads.  The declaration is in package
`cloud`, not among the sources; `Network` and `Disks` are taken as nil-able pointers (a plain
struct is the case that is never nil). -/
structure Params where
  Region : String
  ImageId : String
  InstanceType : String
  Network : Option Network
  Password : String
  Disks : Option Disks
  Tags : List Tag
deriving DecidableEq, Repr

end cloud

namespace ecs

structure RunInstancesTag where
  Key : String
  Value : String
deriving DecidableEq, Repr

structure RunInstancesDataDisk where
  Size : String
  Category : String
  PerformanceLevel : String
deriving DecidableEq, Repr

/-- The fields of `ecs.RunInstancesRequest` that `BatchCreate` could set; a field that was
never assigned is at its zero value (`none` for a `requests.Integer` and for the pointers
`Tag` and `DataDisk`). -/
structure RunInstancesRequest where
  Scheme : String
  RegionId : String
  ImageId : String
  InstanceType : String
  SecurityGroupId : String
  VSwitchId : String
  InternetChargeType : String := ""
  InternetMaxBandwidthOut : Option Int := none
  Password : String
  SystemDiskCategory : String
  SystemDiskSize : String
  DataDisk : Option (List RunInstancesDataDisk) := none
  Amount : Option Int
  MinAmount : Option Int
  Tag : Option (List RunInstancesTag) := none
deriving DecidableEq, Repr

structure InstanceIdSets where
  InstanceIdSet : List String
deriving DecidableEq, Repr

structure RunInstancesResponse where
  InstanceIdSets : InstanceIdSets
deriving DecidableEq, Repr

/-- The `RunInstances` RPC of the transport client (called once). -/
abbrev RunInstancesCall :=
  RunInstancesRequest → Option RunInstancesResponse × Option GoError

end ecs

/-- Go `strconv.Itoa`: the decimal text of an integer. -/
def strconvItoa (i : Int) : String := toString i

namespace alibaba

/-- The list `dataDisks` that `BatchCreate` builds (api.go 142-145). -/
def BatchCreate.dataDisks (disks : cloud.Disks) : List ecs.RunInstancesDataDisk :=
  disks.DataDisk.map fun disk =>
    { Size := strconvItoa disk.Size, Category := disk.Category,
      PerformanceLevel := disk.PerformanceLevel }

/-- The request that `BatchCreate` builds (api.go 126-158); `none` is the panic of reading
through a nil `m.Network` or `m.Disks`.  The list `dataDisks` is computed and then not
assigned to any field of the request. -/
def BatchCreate.request (m : cloud.Params) (num : Int) : Option ecs.RunInstancesRequest := do
  let network ← m.Network
  let disks ← m.Disks
  let _dataDisks := BatchCreate.dataDisks disks
  let tags : Option (List ecs.RunInstancesTag) :=
    if m.Tags.length > 0 then
      some (m.Tags.map fun tag => { Key := tag.Key, Value := tag.Value })
    else none
  pure
    { Scheme := "https"
      RegionId := m.Region
      ImageId := m.ImageId
      InstanceType := m.InstanceType
      SecurityGroupId := network.SecurityGroup
      VSwitchId := network.SubnetId
      InternetChargeType :=
        if network.InternetMaxBandwidthOut ≠ 0 then network.InternetChargeType else ""
      InternetMaxBandwidthOut :=
        if network.InternetMaxBandwidthOut ≠ 0 then some network.InternetMaxBandwidthOut
        else none
      Password := m.Password
      SystemDiskCategory := disks.SystemDisk.Category
      SystemDiskSize := strconvItoa disks.SystemDisk.Size
      Amount := some num
      MinAmount := some num
      Tag := tags }

/-- Method `AlibabaCloud.BatchCreate` (api.go 124-161): one `RunInstances` call; the ids of
the response and the error of the call are returned as they are. -/
def BatchCreate (call : ecs.RunInstancesCall) (m : cloud.Params) (num : Int) :
    Run ecs.RunInstancesRequest (List String × Option GoError) :=
  match BatchCreate.request m num with
  | none => ⟨[], .panicked⟩
  | some request =>
    match (call request).1 with
    | none => ⟨[request], .panicked⟩
    | some response => ⟨[request], .ret (response.InstanceIdSets.InstanceIdSet, (call request).2)⟩

end alibaba

/-! ## Password character classes: `validateCharacterTypeGT3` -/

namespace validation

/-- The byte values of the characters of a literal. -/
def bytesOf (s : String) : List Nat := s.toList.map Char.toNat

/-- The key set of `numberMap` (validator.go 30). -/
def numberMap : List Nat := bytesOf "1234567890"

/-- The key set of `upperLetterMap` (validator.go 31-32). -/
def upperLetterMap : List Nat := bytesOf "ABCDEFGHIJKLMNOPQRSTUVWXYZ"

/-- The key set of `lowerLetterMap` (validator.go 33-34). -/
def lowerLetterMap : List Nat := bytesOf "abcdefghijklmnopqrstuvwxyz"

/-- The key set of `specialCharMap` (validator.go 35-38), in the order of the source:
`( ) backtick ~ ! @ # $ % ^ & * _ - + = | left-brace right-brace [ ] : ; apostrophe < > , . ? /`. -/
def specialCharMap : List Nat :=
  bytesOf "()\x60~!@#$%^&*_-+=|\x7b\x7d[]:;\x27<>,.?/"

/-- The four counters of `validateCharacterTypeGT3`. -/
structure Types where
  numType : Nat := 0
  upperLetterType : Nat := 0
  loweLetterType : Nat := 0
  specialChatType : Nat := 0
deriving DecidableEq, Repr

/-- One round of the byte loop of `validateCharacterTypeGT3` (validator.go 58-75). -/
def validateCharacterTypeGT3.step (t : Types) (c : Nat) : Types :=
  let t := if c ∈ numberMap ∧ t.numType = 0 then { t with numType := 1 } else t
  let t := if c ∈ upperLetterMap ∧ t.upperLetterType = 0 then { t with upperLetterType := 1 } else t
  let t := if c ∈ lowerLetterMap ∧ t.loweLetterType = 0 then { t with loweLetterType := 1 } else t
  let t := if c ∈ specialCharMap ∧ t.specialChatType = 0 then { t with specialChatType := 1 } else t
  t

/-- Function `validateCharacterTypeGT3` (validator.go 55-77) on the bytes of the field's
string value (a Go string is any sequence of bytes). -/
def validateCharacterTypeGT3 (field : List Nat) : Bool :=
  let t := field.foldl validateCharacterTypeGT3.step {}
  decide (t.numType + t.upperLetterType + t.loweLetterType + t.specialChatType ≥ 3)

/-- The number of character classes of the claim that the bytes of a field touch: digits
`0-9` (48..57), upper-case letters `A-Z` (65..90), lower-case letters `a-z` (97..122) and the
special characters `( ) backtick ~ ! @ # $ % ^ & * _ - + = | left-brace right-brace [ ] : ;
apostrophe < > , . ? /`. -/
def classesCovered (field : List Nat) : Nat :=
  (if field.any (fun c => decide (48 ≤ c ∧ c ≤ 57)) then 1 else 0) +
  (if field.any (fun c => decide (65 ≤ c ∧ c ≤ 90)) then 1 else 0) +
  (if field.any (fun c => decide (97 ≤ c ∧ c ≤ 122)) then 1 else 0) +
  (if field.any (fun c => decide (c ∈ bytesOf "()\x60~!@#$%^&*_-+=|\x7b\x7d[]:;\x27<>,.?/"))
    then 1 else 0)

/-- The bytes of a field that belong to one of the four classes. -/
def inSomeClass (c : Nat) : Bool :=
  decide ((48 ≤ c ∧ c ≤ 57) ∨ (65 ≤ c ∧ c ≤ 90) ∨ (97 ≤ c ∧ c ≤ 122) ∨
    c ∈ bytesOf "()\x60~!@#$%^&*_-+=|\x7b\x7d[]:;\x27<>,.?/")

end validation

namespace alibaba

/-- The comma-join of the data model, in the words of the spec: the addresses in the order
given, a comma between neighbours, the empty string when there is none. -/
def commaJoin : List String → String
  | [] => ""
  | [a] => a
  | a :: b :: rest => a ++ "," ++ commaJoin (b :: rest)

end alibaba

namespace Example

/-- A security-group answer with three permission records: an ingress rule, a rule whose
direction is neither "ingress" nor "egress" and that carries no peer field at all, and an
egress rule. -/
def groupAttribute : ecsClient.DescribeSecurityGroupAttributeResponseBody :=
  { VpcId := some "vpc-1"
    SecurityGroupId := some "sg-0"
    Permissions := some ⟨[
      some ⟨some "ingress", some "sg-1", some "10.0.0.0/8", some "pl-1", none, none, none,
        some "22/22", some "TCP", some "2021-11-01T00:00:00Z"⟩,
      some ⟨some "all", none, none, none, none, none, none,
        some "-1/-1", some "ALL", some "2021-11-02T00:00:00Z"⟩,
      some ⟨some "egress", none, none, none, some "sg-2", some "0.0.0.0/0", some "pl-2",
        some "80/80", some "TCP", some "2021-11-03T00:00:00Z"⟩]⟩ }

/-- The rules that the three records of `groupAttribute` map to. -/
def groupRules : List cloud.SecurityGroupRule :=
  [⟨"vpc-1", "sg-0", "22/22", "TCP", "ingress", "sg-1", "10.0.0.0/8", "pl-1",
      "2021-11-01T00:00:00Z"⟩,
   ⟨"vpc-1", "sg-0", "-1/-1", "ALL", "all", "", "", "", "2021-11-02T00:00:00Z"⟩,
   ⟨"vpc-1", "sg-0", "80/80", "TCP", "egress", "sg-2", "0.0.0.0/0", "pl-2",
      "2021-11-03T00:00:00Z"⟩]

/-- A vendor answering the attribute call with `groupAttribute`. -/
def groupAttributeServer : ecsClient.DescribeSecurityGroupAttributeCall :=
  fun _ => (some ⟨some groupAttribute⟩, none)

end Example

namespace Example

/-- The fragment of `time.Parse` on the timestamps used below (any other text parses to the
zero time, year 1), in nanoseconds since the epoch; the other routines and the constants of
`orderEnv`. -/
def orderEnvCalendar : alibaba.OrderEnv :=
  { orderEnv with
    timeParse := fun _ v =>
      if v = "2021-01-01T00:00:00Z" then 1609459200000000000
      else if v = "2022-01-01T00:00:00Z" then 1640995200000000000
      else if v = "2040-12-27T00:00:00Z" then 2240179200000000000
      else if v = "2040-12-27T00:00:00.000000001Z" then 2240179200000000001
      else if v = "2051-01-01T00:00:00Z" then 2556144000000000000
      else -62135596800000000000 }

/-- A pay-as-you-go sub-order with the given usage window. -/
def usageSubOrder (usageStart usageEnd : String) : bssopenapi.Order :=
  { OrderId := "main-1", SubOrderId := "sub-1", SubscriptionType := "PayAsYouGo",
    UsageStartTime := usageStart, UsageEndTime := usageEnd }

/-- A fully populated vendor subnet record, except for its `IsDefault` flag. -/
def switchRecord (flag : Option Bool) : vpcClient.DescribeVSwitchesResponseBodyVSwitchesVSwitch :=
  { VpcId := some "vpc-1", VSwitchId := some "vsw-1", VSwitchName := some "subnet",
    IsDefault := flag, AvailableIpAddressCount := some 250, Status := some "Available",
    CreationTime := some "2021-11-01T00:00:00Z", CidrBlock := some "10.0.0.0/24",
    ZoneId := some "cn-beijing-a" }

/-- A subnet vendor listing one subnet whose `IsDefault` flag is absent. -/
def switchServerNoFlag : vpcClient.DescribeVSwitchesCall :=
  fun _ _ => (some ⟨some ⟨some 1, some ⟨[some (switchRecord none)]⟩⟩⟩, none)

/-- A subnet vendor describing one subnet whose `IsDefault` flag is absent. -/
def switchAttributeNoFlag : vpcClient.DescribeVSwitchAttributesCall :=
  fun _ => (some ⟨some ⟨none, some "vpc-1", some "vsw-1", some "subnet", some 250,
    some "Available", some "2021-11-01T00:00:00Z", some "10.0.0.0/24"⟩⟩, none)

/-- A VPC vendor that never fails and never sends a body. -/
def vpcServerNoBody : vpcClient.DescribeVpcsCall := fun _ _ => (some ⟨none⟩, none)

/-- A subnet vendor that never fails and sends a body without a record list. -/
def switchServerNoList : vpcClient.DescribeVSwitchesCall :=
  fun _ _ => (some ⟨some ⟨some 0, none⟩⟩, none)

/-- A security-group vendor that never fails and sends no response at all. -/
def groupServerNoResponse : ecsClient.DescribeSecurityGroupsCall := fun _ _ => (none, none)

/-- An image vendor whose every call fails (empty response, body absent, error set). -/
def imageServerFailing : ecsClient.DescribeImagesCall :=
  fun _ _ => (some ⟨none⟩, some ⟨"Throttling"⟩)

end Example

namespace alibaba

/-- The pointers of a permission record that the rule mapper of `DescribeGroupRules`
dereferences are all set: the record itself, its direction, port range, protocol and creation
time and, for an "ingress" record, its three source fields, for an "egress" record its three
destination fields (for any other direction none of the six peer fields). -/
def DescribeGroupRules.pointersSet
    (rule : Option ecsClient.DescribeSecurityGroupAttributeResponseBodyPermissionsPermission) :
    Bool :=
  match rule with
  | none => false
  | some rule =>
    match rule.Direction with
    | none => false
    | some direction =>
      rule.PortRange.isSome && rule.IpProtocol.isSome && rule.CreateTime.isSome &&
        (if direction = DirectionIn then
          rule.SourceGroupId.isSome && rule.SourceCidrIp.isSome &&
            rule.SourcePrefixListId.isSome
        else if direction = DirectionOut then
          rule.DestGroupId.isSome && rule.DestCidrIp.isSome && rule.DestPrefixListId.isSome
        else true)

end alibaba

namespace Example

/-- A security-group answer with one permission record whose direction is "all" and whose
port range is absent. -/
def groupAttributeNoPortRange : ecsClient.DescribeSecurityGroupAttributeResponseBody :=
  { VpcId := some "vpc-1"
    SecurityGroupId := some "sg-0"
    Permissions := some ⟨[
      some ⟨some "all", none, none, none, none, none, none,
        none, some "ALL", some "2021-11-02T00:00:00Z"⟩]⟩ }

/-- A vendor answering the attribute call with `groupAttributeNoPortRange`. -/
def groupAttributeNoPortRangeServer : ecsClient.DescribeSecurityGroupAttributeCall :=
  fun _ => (some ⟨some groupAttributeNoPortRange⟩, none)

end Example

/-! ## Generic facts about the count-paged loop -/

namespace Run

theorem afterAll_after {Q α : Type} (qs : List Q) (q : Q) (r : Run Q α) :
    afterAll qs (after q r) = afterAll (qs ++ [q]) r := by
  simp [afterAll, after]

theorem afterAll_mk {Q α : Type} (qs : List Q) (q : Q) (o : Outcome α) :
    afterAll qs ⟨[q], o⟩ = ⟨qs ++ [q], o⟩ := rfl

theorem afterAll_nil {Q α : Type} (r : Run Q α) : afterAll [] r = r := rfl

end Run

theorem convAll_length {ρ σ : Type} (f : ρ → Option σ) :
    ∀ (rs : List ρ) (ss : List σ), convAll f rs = some ss → ss.length = rs.length := by
  intro rs
  induction rs with
  | nil => intro ss h; simp [convAll] at h; subst h; rfl
  | cons r rs ih =>
    intro ss h
    unfold convAll at h
    split at h
    · cases h
    · split at h
      · cases h
      · rename_i ss' hss
        cases h
        simp [ih ss' hss]

theorem countPaging_step_continue {Q R ρ σ : Type} (request : Int → Q)
    (present : R → Option (Page ρ)) (conv : ρ → Option σ)
    (call : Nat → Q → R × Option GoError) (N : Int) (fuel n : Nat) (page : Int)
    (acc recs : List σ) (hgood : GoodPage present conv call N n (request page) recs)
    (hmore : N > wrap32 (page * 50)) :
    countPaging request present conv call (fuel + 1) n page acc =
      (countPaging request present conv call fuel (n + 1) (wrap32 (page + 1))
        (acc ++ recs)).after (request page) := by
  obtain ⟨herr, pg, hpg, htot, hconv⟩ := hgood
  simp only [countPaging, herr, hpg, htot, hconv, hmore, if_true]

theorem countPaging_step_break {Q R ρ σ : Type} (request : Int → Q)
    (present : R → Option (Page ρ)) (conv : ρ → Option σ)
    (call : Nat → Q → R × Option GoError) (N : Int) (fuel n : Nat) (page : Int)
    (acc recs : List σ) (hgood : GoodPage present conv call N n (request page) recs)
    (hlast : ¬ N > wrap32 (page * 50)) :
    countPaging request present conv call (fuel + 1) n page acc =
      ⟨[request page], .ret (acc ++ recs, none)⟩ := by
  obtain ⟨herr, pg, hpg, htot, hconv⟩ := hgood
  simp only [countPaging, herr, hpg, htot, hconv, hlast, if_false]

/-- After `m` consecutive good pages that each report more records than fetched so far, the
loop has issued the `m` requests for pages `p, p+1, ...` and carries on from page `p + m`. -/
theorem countPaging_advance {Q R ρ σ : Type} (request : Int → Q)
    (present : R → Option (Page ρ)) (conv : ρ → Option σ)
    (call : Nat → Q → R × Option GoError) (N : Int) (n : Nat) (p : Int)
    (acc : List σ) (recs : Nat → List σ) (fuel : Nat) :
    ∀ m : Nat,
      (∀ i, i < m → GoodPage present conv call N (n + i) (request (p + i)) (recs i)) →
      (∀ i, i < m → N > wrap32 ((p + i) * 50) ∧ wrap32 (p + i + 1) = p + i + 1) →
      countPaging request present conv call (fuel + m) n p acc =
        Run.afterAll ((List.range m).map (fun i => request (p + (i : Nat))))
          (countPaging request present conv call fuel (n + m) (p + m)
            (acc ++ ((List.range m).map recs).flatten)) := by
  intro m
  induction m generalizing fuel with
  | zero => intro _ _; simp [Run.afterAll]
  | succ m ih =>
    intro hgood hmore
    have h1 := ih (fuel + 1) (fun i hi => hgood i (Nat.lt_succ_of_lt hi))
      (fun i hi => hmore i (Nat.lt_succ_of_lt hi))
    have e : fuel + (m + 1) = fuel + 1 + m := by omega
    rw [e, h1, countPaging_step_continue request present conv call N fuel (n + m) (p + m)
      _ (recs m) (hgood m (Nat.lt_succ_self m)) (hmore m (Nat.lt_succ_self m)).1,
      (hmore m (Nat.lt_succ_self m)).2, Run.afterAll_after]
    simp only [List.range_succ, List.map_append, List.map_cons, List.map_nil,
      List.flatten_append, List.flatten_cons, List.flatten_nil, List.append_nil,
      List.append_assoc, Nat.cast_add, Nat.cast_one, Nat.add_assoc, add_assoc]

theorem flatten_pages_length {α : Type} (f : Nat → List α) (N : Nat) :
    ∀ K : Nat, (∀ i, i < K → (f i).length = min 50 (N - 50 * i)) →
      ((List.range K).map f).flatten.length = min (50 * K) N := by
  intro K
  induction K with
  | zero => intro _; simp
  | succ K ih =>
    intro h
    have h1 := ih (fun i hi => h i (Nat.lt_succ_of_lt hi))
    have h2 := h K (Nat.lt_succ_self K)
    simp only [List.range_succ, List.map_append, List.map_cons, List.map_nil,
      List.flatten_append, List.flatten_cons, List.flatten_nil, List.append_nil,
      List.length_append, h1, h2]
    omega

/-- The count-paged loop, started as the source starts it (page 1, nothing accumulated), on a
transport whose answers all report the same total `N`. -/
theorem countPaging_total {Q R ρ σ : Type} (request : Int → Q)
    (present : R → Option (Page ρ)) (conv : ρ → Option σ)
    (call : Nat → Q → R × Option GoError) (N : Nat) (hN : N ≤ 2147483600)
    (recs : Nat → List σ) (K : Nat) (hK : K = max 1 ((N + 49) / 50))
    (hgood : ∀ i, i < K → GoodPage present conv call N i (request ((i : Int) + 1)) (recs i))
    (fuel : Nat) (hfuel : K ≤ fuel) :
    countPaging request present conv call fuel 0 1 [] =
      ⟨(List.range K).map (fun i : Nat => request ((i : Int) + 1)),
        .ret (((List.range K).map recs).flatten, none)⟩ := by
  have hadv := countPaging_advance request present conv call N 0 1 [] recs (fuel - K + 1) (K - 1)
    (fun i hi => by
      have := hgood i (by omega)
      simpa [add_comm] using this)
    (fun i hi => by
      unfold wrap32
      omega)
  have e1 : fuel - K + 1 + (K - 1) = fuel := by omega
  have e2 : ((1 : Int) + ((K - 1 : Nat) : Int)) = ((K - 1 : Nat) : Int) + 1 := by omega
  rw [e1] at hadv
  rw [hadv, e2, countPaging_step_break request present conv call N (fuel - K) (0 + (K - 1))
    (((K - 1 : Nat) : Int) + 1) _ (recs (K - 1))
    (by simpa using hgood (K - 1) (by omega))
    (by unfold wrap32; omega), Run.afterAll_mk]
  have e3 : K = (K - 1) + 1 := by omega
  have e4 : (fun i : Nat => request (1 + (i : Int))) = fun i : Nat => request ((i : Int) + 1) := by
    funext i
    rw [add_comm]
  rw [e4]
  conv_rhs => rw [e3]
  simp only [List.range_succ, List.map_append, List.map_cons, List.map_nil,
    List.flatten_append, List.flatten_cons, List.flatten_nil, List.append_nil, List.nil_append]

theorem convAll_map_of_forall {ι ρ σ : Type} (f : ρ → Option σ) (g : ι → ρ) (h : ι → σ)
    (hfg : ∀ x, f (g x) = some (h x)) :
    ∀ l : List ι, convAll f (l.map g) = some (l.map h) := by
  intro l
  induction l with
  | nil => rfl
  | cons x xs ih => simp [convAll, hfg, ih]

/-! ## Count-based paging: `DescribeVpcs` -/

namespace alibaba

/-- C1 (amended): for every total `N` with `0 ≤ N ≤ 2147483600`, if each of the first `K`
calls (`K = 1` when `N = 0`, `K = ceil(N/50)` otherwise) is answered without error, with body
and record list present, mappable records and `TotalCount = N`, then with any step budget of at
least `K` `DescribeVpcs` requests pages `1, 2, ..., K` in order with page size 50, issues no
other call, and returns a nil error with the mapped records of the fetched pages concatenated
in page order; when page `i` (counted from 0) carries `min 50 (N - 50*i)` records the result
has exactly `N` records. -/
theorem DescribeVpcs_count_paging (N : Nat) (hN : N ≤ 2147483600)
    (K : Nat) (hK : K = if N = 0 then 1 else (N + 49) / 50)
    (call : vpcClient.DescribeVpcsCall) (req : cloud.DescribeVpcsRequest)
    (pages : Nat → List (Option vpcClient.DescribeVpcsResponseBodyVpcsVpc))
    (mapped : Nat → List cloud.VPC)
    (hcall : ∀ i : Nat, i < K →
      call i ⟨req.RegionId, 50, (i : Int) + 1⟩ =
        (some ⟨some ⟨some (N : Int), some ⟨pages i⟩⟩⟩, none))
    (hconv : ∀ i : Nat, i < K → convAll DescribeVpcs.conv (pages i) = some (mapped i))
    (fuel : Nat) (hfuel : K ≤ fuel) :
    DescribeVpcs fuel call req =
        ⟨(List.range K).map (fun i : Nat => ⟨req.RegionId, 50, (i : Int) + 1⟩),
          .ret ({ Vpcs := ((List.range K).map mapped).flatten }, none)⟩ ∧
      ((∀ i : Nat, i < K → (pages i).length = min 50 (N - 50 * i)) →
        ((List.range K).map mapped).flatten.length = N) := by
  have hK2 : K = max 1 ((N + 49) / 50) := by
    rw [hK]; split <;> omega
  constructor
  · have h := countPaging_total (DescribeVpcs.request req) DescribeVpcs.present
      DescribeVpcs.conv call N hN mapped K hK2
      (fun i hi => ⟨by simp [DescribeVpcs.request, hcall i hi],
        ⟨pages i, some (N : Int)⟩, by simp [DescribeVpcs.request, hcall i hi, DescribeVpcs.present],
        rfl, hconv i hi⟩) fuel hfuel
    simp only [DescribeVpcs, h, Run.mapRet]
    rfl
  · intro hlen
    rw [flatten_pages_length mapped N K
      (fun i hi => by rw [convAll_length _ _ _ (hconv i hi), hlen i hi])]
    omega

/-- C1, witness: a vendor holding 120 VPCs is listed in three calls (pages 1, 2, 3) and all
120 mapped records come back. -/
theorem DescribeVpcs_count_paging_witness :
    DescribeVpcs 3 (Example.vpcServer 120) ⟨"cn-beijing"⟩ =
        ⟨(List.range 3).map (fun i : Nat => ⟨"cn-beijing", 50, (i : Int) + 1⟩),
          .ret ({ Vpcs := ((List.range 3).map (Example.vpcPageMapped 120)).flatten }, none)⟩ ∧
      ((∀ i : Nat, i < 3 → (Example.vpcPage 120 i).length = min 50 (120 - 50 * i)) →
        ((List.range 3).map (Example.vpcPageMapped 120)).flatten.length = 120) :=
  DescribeVpcs_count_paging 120 (by decide) 3 (by decide) (Example.vpcServer 120) ⟨"cn-beijing"⟩
    (Example.vpcPage 120) (Example.vpcPageMapped 120) (fun _ _ => rfl)
    (fun i _ => convAll_map_of_forall DescribeVpcs.conv
      (fun j => Example.vpcRecord (50 * i + j)) (fun j => Example.vpcMapped (50 * i + j))
      (fun _ => rfl) _) 3 (Nat.le_refl 3)

/-- C1, counterexample: with `TotalCount = 2147483647` on every page, `ceil(N/50)` is
42949673, but at page 42949673 the `int32` product `page*50` wraps to a negative number, the
loop goes on, and a budget of 42949674 steps is used up by 42949674 calls with the loop still
running. -/
theorem DescribeVpcs_count_paging_overflow :
    (DescribeVpcs 42949674 Example.vpcServerMaxInt32 ⟨"cn-beijing"⟩).calls.length = 42949674 ∧
      (DescribeVpcs 42949674 Example.vpcServerMaxInt32 ⟨"cn-beijing"⟩).out = .running ∧
      (2147483647 + 49) / 50 = 42949673 := by
  have h := countPaging_advance (DescribeVpcs.request ⟨"cn-beijing"⟩) DescribeVpcs.present
    DescribeVpcs.conv Example.vpcServerMaxInt32 2147483647 0 1 [] (fun _ => []) 0 42949674
    (fun i _ => ⟨rfl, ⟨[], some 2147483647⟩, rfl, rfl, rfl⟩)
    (fun i hi => by unfold wrap32; omega)
  rw [Nat.zero_add] at h
  refine ⟨?_, ?_, by norm_num⟩
  · rw [DescribeVpcs, h]
    simp only [Run.mapRet, Run.afterAll, countPaging, List.append_nil, List.length_map,
      List.length_range]
  · rw [DescribeVpcs, h]
    simp only [Run.mapRet, Run.afterAll, countPaging]

end alibaba

/-! ## First-page-then-computed-max paging: `GetInstancesByTags` -/

namespace alibaba

/-- C2 (code defect): on a vendor holding 51 instances (`TotalCount = 51`, 50 instances on
page 1 and one on page 2) `GetInstancesByTags` computes `maxPage` from the truncated quotient
`51 / 50 = 1`, so it issues the first call only and returns the 50 instances of page 1 with a
nil error, where `ceil(51/50) = 2` calls and 51 instances are due. -/
theorem GetInstancesByTags_drops_last_page (fuel : Nat) :
    GetInstancesByTags (fuel + 1) (Example.instanceServer 51) "cn-beijing" [] =
        ⟨[{ Scheme := "https", Tag := some [], PageSize := some 50 }],
          .ret (generateInstances (Example.instancePage 51 1), none)⟩ ∧
      (generateInstances (Example.instancePage 51 1)).length = 50 ∧
      (51 + 49) / 50 = 2 := by
  refine ⟨rfl, ?_, by norm_num⟩
  simp [generateInstances, Example.instancePage]

end alibaba

/-! ## Failure of a page call -/

/-- If the count-paged loop issues a `(j+1)`-th call and that call fails with `e`, the call is
the last one and the loop returns nothing but `e`. -/
theorem countPaging_error {Q R ρ σ : Type} (request : Int → Q)
    (present : R → Option (Page ρ)) (conv : ρ → Option σ)
    (call : Nat → Q → R × Option GoError) (e : GoError) :
    ∀ (j fuel n : Nat) (page : Int) (acc : List σ) (q : Q),
      (countPaging request present conv call fuel n page acc).calls[j]? = some q →
      (call (n + j) q).2 = some e →
      (countPaging request present conv call fuel n page acc).calls.length = j + 1 ∧
        (countPaging request present conv call fuel n page acc).out = .ret ([], some e) := by
  intro j
  induction j with
  | zero =>
    intro fuel n page acc q hq herr
    cases fuel with
    | zero => simp [countPaging] at hq
    | succ fuel =>
      have hq0 : q = request page := by
        unfold countPaging at hq
        (repeat' split at hq) <;> simp_all [Run.after]
      subst hq0
      rw [Nat.add_zero] at herr
      simp [countPaging, herr]
  | succ j ih =>
    intro fuel n page acc q hq herr
    cases fuel with
    | zero => simp [countPaging] at hq
    | succ fuel =>
      have e1 : n + (j + 1) = n + 1 + j := by omega
      rw [e1] at herr
      unfold countPaging at hq ⊢
      (repeat' split at hq) <;> simp_all [Run.after]

namespace alibaba

/-- C3: for every `k ≥ 1` and error `e`, if `DescribeVpcs` (likewise `DescribeSwitches`,
`DescribeSecurityGroups`) issues a `k`-th call — which it does only after `k-1` calls without
error — and the transport answers that call with error `e`, then the operation issues exactly
`k` calls, none after the failed one, and returns the zero-value response (no records of the
earlier pages) together with exactly `e`. -/
theorem paging_aborts_on_error (k : Nat) (hk : 1 ≤ k) (e : GoError) :
    (∀ (fuel : Nat) (call : vpcClient.DescribeVpcsCall) (req : cloud.DescribeVpcsRequest)
        (q : vpcClient.DescribeVpcsRequest),
        (DescribeVpcs fuel call req).calls[k - 1]? = some q → (call (k - 1) q).2 = some e →
        (DescribeVpcs fuel call req).calls.length = k ∧
          (DescribeVpcs fuel call req).out = .ret ({}, some e)) ∧
    (∀ (fuel : Nat) (call : vpcClient.DescribeVSwitchesCall) (req : cloud.DescribeSwitchesRequest)
        (q : vpcClient.DescribeVSwitchesRequest),
        (DescribeSwitches fuel call req).calls[k - 1]? = some q → (call (k - 1) q).2 = some e →
        (DescribeSwitches fuel call req).calls.length = k ∧
          (DescribeSwitches fuel call req).out = .ret ({}, some e)) ∧
    (∀ (fuel : Nat) (call : ecsClient.DescribeSecurityGroupsCall)
        (req : cloud.DescribeSecurityGroupsRequest)
        (q : ecsClient.DescribeSecurityGroupsRequest),
        (DescribeSecurityGroups fuel call req).calls[k - 1]? = some q →
        (call (k - 1) q).2 = some e →
        (DescribeSecurityGroups fuel call req).calls.length = k ∧
          (DescribeSecurityGroups fuel call req).out = .ret ({}, some e)) := by
  have hk1 : k - 1 + 1 = k := by omega
  refine ⟨?_, ?_, ?_⟩
  · intro fuel call req q hq herr
    have h := countPaging_error (DescribeVpcs.request req) DescribeVpcs.present
      DescribeVpcs.conv call e (k - 1) fuel 0 1 [] q (by simpa [DescribeVpcs, Run.mapRet] using hq)
      (by simpa using herr)
    rw [hk1] at h
    simp only [DescribeVpcs, Run.mapRet, h.1, h.2, and_self]
  · intro fuel call req q hq herr
    have h := countPaging_error (DescribeSwitches.request req) DescribeSwitches.present
      DescribeSwitches.conv call e (k - 1) fuel 0 1 [] q
      (by simpa [DescribeSwitches, Run.mapRet] using hq) (by simpa using herr)
    rw [hk1] at h
    simp only [DescribeSwitches, Run.mapRet, h.1, h.2, and_self]
  · intro fuel call req q hq herr
    have h := countPaging_error (DescribeSecurityGroups.request req)
      DescribeSecurityGroups.present (DescribeSecurityGroups.conv req) call e (k - 1) fuel 0 1 []
      q (by simpa [DescribeSecurityGroups, Run.mapRet] using hq) (by simpa using herr)
    rw [hk1] at h
    simp only [DescribeSecurityGroups, Run.mapRet, h.1, h.2, and_self]

/-- C3, witness: the second call of a VPC listing fails, the only call of a subnet listing
and of a security-group listing fails; each operation stops at the failed call and returns the
zero-value response with the error. -/
theorem paging_aborts_on_error_witness :
    (1 ≤ 2 ∧
      (DescribeVpcs 5 Example.vpcServerFailingSecond ⟨"cn-beijing"⟩).calls.length = 2 ∧
      (DescribeVpcs 5 Example.vpcServerFailingSecond ⟨"cn-beijing"⟩).out =
        .ret ({}, some ⟨"Throttling"⟩)) ∧
    (1 ≤ 1 ∧
      (DescribeSwitches 5 Example.switchServerFailing ⟨"vpc-1"⟩).calls.length = 1 ∧
      (DescribeSwitches 5 Example.switchServerFailing ⟨"vpc-1"⟩).out =
        .ret ({}, some ⟨"Throttling"⟩)) ∧
    (1 ≤ 1 ∧
      (DescribeSecurityGroups 5 Example.groupServerFailing ⟨"cn-beijing", "vpc-1"⟩).calls.length
        = 1 ∧
      (DescribeSecurityGroups 5 Example.groupServerFailing ⟨"cn-beijing", "vpc-1"⟩).out =
        .ret ({}, some ⟨"Throttling"⟩)) :=
  ⟨⟨by decide, (paging_aborts_on_error 2 (by decide) ⟨"Throttling"⟩).1 5
      Example.vpcServerFailingSecond ⟨"cn-beijing"⟩ ⟨"cn-beijing", 50, 2⟩ (by decide) (by decide)⟩,
   ⟨by decide, (paging_aborts_on_error 1 (by decide) ⟨"Throttling"⟩).2.1 5
      Example.switchServerFailing ⟨"vpc-1"⟩ ⟨"vpc-1", 50, 1⟩ (by decide) (by decide)⟩,
   ⟨by decide, (paging_aborts_on_error 1 (by decide) ⟨"Throttling"⟩).2.2 5
      Example.groupServerFailing ⟨"cn-beijing", "vpc-1"⟩ ⟨"cn-beijing", "vpc-1", 50, 1⟩
      (by decide) (by decide)⟩⟩

/-- C4 (code defect): the first `DescribeImages` call fails (error set, body absent); the
loop has no error check, so it requests page 1 a second time and, that call succeeding,
returns the image with a nil error — the failure of the first call is lost. -/
theorem DescribeImages_swallows_error :
    (Example.imageServerFailingFirst 0 ⟨"cn-beijing", 50, 1⟩).2 = some ⟨"Throttling"⟩ ∧
      DescribeImages 5 Example.imageServerFailingFirst ⟨"cn-beijing"⟩ =
        ⟨[⟨"cn-beijing", 50, 1⟩, ⟨"cn-beijing", 50, 1⟩],
          .ret ({ Images := [⟨"linux", "CentOS", "m-1"⟩] }, none)⟩ := by
  decide

/-- C5 (code defect): 51 ids make two chunks; the call for the first chunk fails, the call
for the second succeeds with one instance; `GetInstances` issues both calls and returns that
one instance with a nil error — the error of the first chunk is overwritten. -/
theorem GetInstances_swallows_error (marshal : List String → String) :
    (utils.StringSliceSplit (Example.ids 51) 50).map List.length = [50, 1] ∧
      (∀ q, (Example.instanceServerFailingFirst 0 q).2 = some ⟨"Throttling"⟩) ∧
      (GetInstances marshal Example.instanceServerFailingFirst (Example.ids 51)).calls.length
        = 2 ∧
      (GetInstances marshal Example.instanceServerFailingFirst (Example.ids 51)).out =
        .ret (generateInstances [Example.instanceRecord 1], none) := by
  refine ⟨by decide, fun _ => rfl, ?_, ?_⟩ <;> rfl

/-- C7 (code defect): 120 ids make three chunks; the second `DeleteInstances` call fails;
`BatchDelete` still issues the third call and, that call succeeding, returns a nil error. -/
theorem BatchDelete_swallows_error :
    (∀ q, (Example.deleteServerFailingSecond 1 q).2 = some ⟨"Throttling"⟩) ∧
      (BatchDelete Example.deleteServerFailingSecond (Example.ids 120) "cn-beijing").calls.map
        (fun q => q.InstanceId.length) = [50, 50, 20] ∧
      (BatchDelete Example.deleteServerFailingSecond (Example.ids 120) "cn-beijing").out =
        .ret none := by
  refine ⟨fun _ => rfl, by decide, by decide⟩

end alibaba

/-! ## Chunking of id lists -/

namespace utils

theorem StringSliceSplit.go_flatten (subSize : Nat) (hsize : 0 < subSize) :
    ∀ (fuel : Nat) (s : List String), s.length ≤ fuel →
      (StringSliceSplit.go subSize fuel s).flatten = s := by
  intro fuel
  induction fuel with
  | zero =>
    intro s hs
    have : s = [] := List.length_eq_zero.mp (Nat.le_zero.mp hs)
    subst this
    rfl
  | succ fuel ih =>
    intro s hs
    unfold StringSliceSplit.go
    split
    · rename_i h; subst h; rfl
    · rename_i h
      have hpos : 0 < s.length := List.length_pos.mpr h
      have hdrop : (s.drop subSize).length ≤ fuel := by
        rw [List.length_drop]; omega
      rw [List.flatten_cons, ih _ hdrop, List.take_append_drop]

theorem StringSliceSplit.go_length :
    ∀ (fuel : Nat) (s : List String), s.length ≤ fuel →
      (StringSliceSplit.go 50 fuel s).length = (s.length + 49) / 50 := by
  intro fuel
  induction fuel with
  | zero =>
    intro s hs
    have : s = [] := List.length_eq_zero.mp (Nat.le_zero.mp hs)
    subst this
    rfl
  | succ fuel ih =>
    intro s hs
    unfold StringSliceSplit.go
    split
    · rename_i h; subst h; rfl
    · rename_i h
      have hpos : 0 < s.length := List.length_pos.mpr h
      have hdrop : (s.drop 50).length ≤ fuel := by
        rw [List.length_drop]; omega
      rw [List.length_cons, ih _ hdrop, List.length_drop]
      omega

theorem StringSliceSplit.go_chunk_le :
    ∀ (fuel : Nat) (s : List String) (c : List String),
      c ∈ StringSliceSplit.go 50 fuel s → 1 ≤ c.length ∧ c.length ≤ 50 := by
  intro fuel
  induction fuel with
  | zero => intro s c hc; simp [StringSliceSplit.go] at hc
  | succ fuel ih =>
    intro s c hc
    unfold StringSliceSplit.go at hc
    split at hc
    · simp at hc
    · rename_i h
      have hpos : 0 < s.length := List.length_pos.mpr h
      rcases List.mem_cons.mp hc with h1 | h1
      · subst h1
        rw [List.length_take]
        omega
      · exact ih _ c h1

theorem StringSliceSplit.go_full :
    ∀ (fuel : Nat) (s : List String), s.length ≤ fuel →
      ∀ (i : Nat), i + 1 < (StringSliceSplit.go 50 fuel s).length →
        ∃ c, (StringSliceSplit.go 50 fuel s)[i]? = some c ∧ c.length = 50 := by
  intro fuel
  induction fuel with
  | zero => intro s _ i hi; simp [StringSliceSplit.go] at hi
  | succ fuel ih =>
    intro s hs i hi
    have hlen := StringSliceSplit.go_length (fuel + 1) s hs
    unfold StringSliceSplit.go at hi hlen ⊢
    split at hi
    · simp at hi
    · rename_i h
      rw [if_neg h] at hlen ⊢
      have hpos : 0 < s.length := List.length_pos.mpr h
      have hdrop : (s.drop 50).length ≤ fuel := by
        rw [List.length_drop]; omega
      cases i with
      | zero =>
        refine ⟨s.take 50, by simp, ?_⟩
        rw [List.length_cons] at hi
        rw [List.length_cons] at hlen
        rw [List.length_take]
        omega
      | succ i =>
        rw [List.length_cons] at hi
        simpa using ih _ hdrop i (by omega)

end utils

namespace alibaba

set_option maxRecDepth 20000 in
/-- C6 (code defect): 120 ids on a delete endpoint whose every call succeeds.  The adapter
assigns the chunks of 50, 50 and 20 ids to the field `InstanceId` of one and the same request
object, three calls are issued and a nil error is returned; but the third call carries 50
ids, not 20: the 20 ids of the third chunk (ids 100..119) and, left in the request object by
the second call, ids 70..99 once more.  The ids carried by the three calls, concatenated, are
150 ids and not the 120 ids of the input list. -/
theorem BatchDelete_resends_stale_ids :
    (BatchDelete Example.deleteServer (Example.ids 120) "cn-beijing").out = .ret none ∧
      (BatchDelete Example.deleteServer (Example.ids 120) "cn-beijing").calls.map
        (fun q => q.InstanceId.length) = [50, 50, 20] ∧
      (BatchDelete Example.deleteServer (Example.ids 120) "cn-beijing").calls.map
        (fun q => q.InstanceIdParams.length) = [50, 50, 50] ∧
      (BatchDelete Example.deleteServer (Example.ids 120) "cn-beijing").calls[2]?.map
          (fun q => q.InstanceIdParams) =
        some ((Example.ids 120).drop 100 ++ ((Example.ids 120).drop 70).take 30) ∧
      ((BatchDelete Example.deleteServer (Example.ids 120) "cn-beijing").calls.map
        (fun q => q.InstanceIdParams.length)).sum = 150 ∧
      (Example.ids 120).length = 120 := by
  refine ⟨by decide, by decide, by decide, rfl, by decide, by decide⟩

end alibaba

/-! ## Billing: `GetOrders` -/

namespace alibaba

/-- The detail loop when the detail call for the `(j+1)`-th remaining order is the first to
fail: the calls for the orders before it and for it are issued, none after, and the loop
returns the zero-value response with the failure. -/
theorem GetOrders.loop_fails (env : OrderEnv) (client : bssopenapi.Client) (e : GoError) :
    ∀ (j : Nat) (rows : List bssopenapi.Order) (n : Nat) (orders : List cloud.Order)
      (row : bssopenapi.Order),
      rows[j]? = some row →
      (∀ i row', i < j → rows[i]? = some row' →
        ∃ rsp, client.GetOrderDetail (n + i) (GetOrders.detailReq row') = (some rsp, none) ∧
          rsp.Success = true) →
      GetOrders.failure (client.GetOrderDetail (n + j) (GetOrders.detailReq row)) = some e →
      GetOrders.loop env client rows n orders =
        ⟨(rows.take (j + 1)).map (fun r => .getOrderDetail (GetOrders.detailReq r)),
          .ret ({}, some e)⟩ := by
  intro j
  induction j with
  | zero =>
    intro rows n orders row hrow _ hfail
    cases rows with
    | nil => simp at hrow
    | cons r0 rest =>
      simp only [List.getElem?_cons_zero, Option.some.injEq] at hrow
      subst hrow
      rw [Nat.add_zero] at hfail
      unfold GetOrders.loop
      unfold GetOrders.failure at hfail
      split at hfail
      · rename_i h
        simp only [Option.some.injEq] at hfail
        subst hfail
        simp [h]
      · rename_i rsp h
        split at hfail
        · rename_i hs
          simp only [Option.some.injEq] at hfail
          subst hfail
          simp [h, hs]
        · cases hfail
      · cases hfail
  | succ j ih =>
    intro rows n orders row hrow hprev hfail
    cases rows with
    | nil => simp at hrow
    | cons r0 rest =>
      simp only [List.getElem?_cons_succ] at hrow
      obtain ⟨rsp, hrsp, hs⟩ := hprev 0 r0 (Nat.succ_pos j) (by simp)
      rw [Nat.add_zero] at hrsp
      have e1 : n + (j + 1) = n + 1 + j := by omega
      rw [e1] at hfail
      have hprev' : ∀ i row', i < j → rest[i]? = some row' →
          ∃ rsp, client.GetOrderDetail (n + 1 + i) (GetOrders.detailReq row') = (some rsp, none) ∧
            rsp.Success = true := by
        intro i row' hi h
        have := hprev (i + 1) row' (by omega) (by simpa using h)
        have e2 : n + (i + 1) = n + 1 + i := by omega
        rwa [e2] at this
      unfold GetOrders.loop
      simp only [hrsp, hs, Bool.not_true, Bool.false_eq_true, if_false]
      split <;> simp [ih rest (n + 1) _ row hrow hprev' hfail, Run.after]

/-- The detail loop when every detail call succeeds: one call per listed order, in order, and
the mapped sub-orders of all the answers appended in that order. -/
theorem GetOrders.loop_succeeds (env : OrderEnv) (client : bssopenapi.Client) :
    ∀ (rows : List bssopenapi.Order) (n : Nat) (orders : List cloud.Order)
      (details : Nat → List bssopenapi.Order),
      (∀ i row, rows[i]? = some row →
        ∃ rsp, client.GetOrderDetail (n + i) (GetOrders.detailReq row) = (some rsp, none) ∧
          rsp.Success = true ∧ rsp.Data.OrderList.Order = details i) →
      GetOrders.loop env client rows n orders =
        ⟨rows.map (fun r => .getOrderDetail (GetOrders.detailReq r)),
          .ret ({ Orders := orders ++
            (((List.range rows.length).map details).flatten).map (GetOrders.conv env) },
            none)⟩ := by
  intro rows
  induction rows with
  | nil => intro n orders details _; simp [GetOrders.loop]
  | cons r0 rest ih =>
    intro n orders details h
    obtain ⟨rsp, hrsp, hs, hd⟩ := h 0 r0 (by simp)
    rw [Nat.add_zero] at hrsp
    have h' : ∀ i row, rest[i]? = some row →
        ∃ rsp, client.GetOrderDetail (n + 1 + i) (GetOrders.detailReq row) = (some rsp, none) ∧
          rsp.Success = true ∧ rsp.Data.OrderList.Order = details (i + 1) := by
      intro i row hi
      have := h (i + 1) row (by simpa using hi)
      have e2 : n + (i + 1) = n + 1 + i := by omega
      rwa [e2] at this
    unfold GetOrders.loop
    simp only [hrsp, hs, Bool.not_true, Bool.false_eq_true, if_false, hd]
    have hr : List.range (rest.length + 1) = 0 :: (List.range rest.length).map Nat.succ := by
      rw [List.range_succ_eq_map]
    split
    · rename_i hz
      have hz' : details 0 = [] := List.length_eq_zero.mp hz
      simp [ih (n + 1) orders (fun i => details (i + 1)) h', Run.after, hr, hz', List.map_map,
        Function.comp_def]
    · simp [ih (n + 1) _ (fun i => details (i + 1)) h', Run.after, hr, List.map_map,
        Function.comp_def]

/-- Unfolding of `GetOrders` once the list call has succeeded with at least one order: the list request,
then the detail loop. -/
theorem GetOrders_of_listed (env : OrderEnv) (client : bssopenapi.Client)
    (req : cloud.GetOrdersRequest) (response : bssopenapi.QueryOrdersResponse)
    (hlist : client.QueryOrders (GetOrders.request env req) = (some response, none))
    (hsucc : response.Success = true) (hne : response.Data.OrderList.Order ≠ []) :
    GetOrders env client req =
      (GetOrders.loop env client response.Data.OrderList.Order 0 []).after
        (.queryOrders (GetOrders.request env req)) := by
  have hlen : response.Data.OrderList.Order.length ≠ 0 := fun h => hne (List.length_eq_zero.mp h)
  simp [GetOrders, hlist, hsucc, hlen]

/-- C8: `GetOrders` is all-or-nothing.  The list call succeeds; `row` is the `k`-th listed
order (`1 ≤ k`, so there are `m ≥ k ≥ 1` orders); the detail calls for orders `1..k-1`
succeed; the detail call for order `k` fails, by a transport error or by `Success = false`.
Then the requests issued are the list request followed by the detail requests for orders
`1..k`, one per listed order in listed order and none for orders `k+1..m`, and `GetOrders`
returns a non-nil error with an empty order sequence. -/
theorem GetOrders_all_or_nothing (env : OrderEnv) (client : bssopenapi.Client)
    (req : cloud.GetOrdersRequest) (response : bssopenapi.QueryOrdersResponse)
    (k : Nat) (row : bssopenapi.Order)
    (hlist : client.QueryOrders (GetOrders.request env req) = (some response, none))
    (hsucc : response.Success = true)
    (hk : 1 ≤ k) (hrow : response.Data.OrderList.Order[k - 1]? = some row)
    (hprev : ∀ i row', i < k - 1 → response.Data.OrderList.Order[i]? = some row' →
      ∃ rsp, client.GetOrderDetail i ⟨"https", row'.OrderId⟩ = (some rsp, none) ∧
        rsp.Success = true)
    (hfail : (∃ rsp e, client.GetOrderDetail (k - 1) ⟨"https", row.OrderId⟩ = (rsp, some e)) ∨
      (∃ rsp, client.GetOrderDetail (k - 1) ⟨"https", row.OrderId⟩ = (some rsp, none) ∧
        rsp.Success = false)) :
    (GetOrders env client req).calls =
        .queryOrders (GetOrders.request env req) ::
          (response.Data.OrderList.Order.take k).map
            (fun r => .getOrderDetail ⟨"https", r.OrderId⟩) ∧
      ∃ e, (GetOrders env client req).out = .ret ({ Orders := [] }, some e) := by
  have hne : response.Data.OrderList.Order ≠ [] := by
    intro h; rw [h] at hrow; simp at hrow
  have hfail' : ∃ e, GetOrders.failure
      (client.GetOrderDetail (0 + (k - 1)) (GetOrders.detailReq row)) = some e := by
    rw [Nat.zero_add]
    rcases hfail with ⟨rsp, e, h⟩ | ⟨rsp, h, hs⟩
    · exact ⟨e, by simp [GetOrders.detailReq, GetOrders.failure, h]⟩
    · exact ⟨errorsNew rsp.Message, by simp [GetOrders.detailReq, GetOrders.failure, h, hs]⟩
  obtain ⟨e, he⟩ := hfail'
  have hloop := GetOrders.loop_fails env client e (k - 1) response.Data.OrderList.Order 0 []
    row hrow (fun i row' hi h => by simpa [GetOrders.detailReq] using hprev i row' hi h) he
  have hk1 : k - 1 + 1 = k := by omega
  rw [hk1] at hloop
  rw [GetOrders_of_listed env client req response hlist hsucc hne, hloop]
  exact ⟨rfl, e, rfl⟩

/-- C8, witness: two listed orders, the second detail call fails in transport; both detail
calls are issued and an error comes back with no order, not even those of the first. -/
theorem GetOrders_all_or_nothing_witness :
    (GetOrders Example.orderEnv Example.billingServerFailingSecond Example.orderQuery).calls =
        .queryOrders (GetOrders.request Example.orderEnv Example.orderQuery) ::
          (Example.listedOrders.take 2).map (fun r => .getOrderDetail ⟨"https", r.OrderId⟩) ∧
      ∃ e, (GetOrders Example.orderEnv Example.billingServerFailingSecond
        Example.orderQuery).out = .ret ({ Orders := [] }, some e) :=
  GetOrders_all_or_nothing Example.orderEnv Example.billingServerFailingSecond
    Example.orderQuery ⟨true, "", ⟨⟨Example.listedOrders⟩⟩⟩ 2 { OrderId := "main-2" }
    rfl rfl (by decide) rfl
    (fun i row' hi h => by
      obtain rfl : i = 0 := by omega
      exact ⟨_, rfl, rfl⟩)
    (Or.inl ⟨_, _, rfl⟩)

/-- C9: a billing answer that the transport returns without error but with `Success = false`
and message `m` makes `GetOrders` return an error whose text is exactly `m`, with an empty
order sequence — for the list answer, and for the answer to the detail call of the `k`-th
listed order when the detail calls before it succeeded. -/
theorem GetOrders_vendor_message (env : OrderEnv) (client : bssopenapi.Client)
    (req : cloud.GetOrdersRequest) (response : bssopenapi.QueryOrdersResponse)
    (hlist : client.QueryOrders (GetOrders.request env req) = (some response, none)) :
    (response.Success = false →
      GetOrders env client req =
        ⟨[.queryOrders (GetOrders.request env req)],
          .ret ({ Orders := [] }, some ⟨response.Message⟩)⟩) ∧
    (∀ (k : Nat) (row : bssopenapi.Order) (rsp : bssopenapi.GetOrderDetailResponse),
      response.Success = true → 1 ≤ k →
      response.Data.OrderList.Order[k - 1]? = some row →
      (∀ i row', i < k - 1 → response.Data.OrderList.Order[i]? = some row' →
        ∃ rsp', client.GetOrderDetail i ⟨"https", row'.OrderId⟩ = (some rsp', none) ∧
          rsp'.Success = true) →
      client.GetOrderDetail (k - 1) ⟨"https", row.OrderId⟩ = (some rsp, none) →
      rsp.Success = false →
      (GetOrders env client req).out = .ret ({ Orders := [] }, some ⟨rsp.Message⟩) ∧
        (GoError.mk rsp.Message).text = rsp.Message) := by
  constructor
  · intro hs
    simp [GetOrders, hlist, hs, errorsNew]
  · intro k row rsp hsucc hk hrow hprev hrsp hs
    have hne : response.Data.OrderList.Order ≠ [] := by
      intro h; rw [h] at hrow; simp at hrow
    have he : GetOrders.failure
        (client.GetOrderDetail (0 + (k - 1)) (GetOrders.detailReq row)) =
          some ⟨rsp.Message⟩ := by
      rw [Nat.zero_add]
      simp [GetOrders.detailReq, GetOrders.failure, hrsp, hs, errorsNew]
    have hloop := GetOrders.loop_fails env client _ (k - 1) response.Data.OrderList.Order 0 []
      row hrow (fun i row' hi h => by simpa [GetOrders.detailReq] using hprev i row' hi h) he
    rw [GetOrders_of_listed env client req response hlist hsucc hne, hloop]
    exact ⟨rfl, rfl⟩

/-- C9, witness: the vendor refuses the list call with the message "not authorized", or the
second detail call with the message "order not found"; `GetOrders` returns an error with
exactly that text and no order. -/
theorem GetOrders_vendor_message_witness :
    GetOrders Example.orderEnv Example.billingServerRefusingList Example.orderQuery =
        ⟨[.queryOrders (GetOrders.request Example.orderEnv Example.orderQuery)],
          .ret ({ Orders := [] }, some ⟨"not authorized"⟩)⟩ ∧
      (GetOrders Example.orderEnv Example.billingServerRefusingSecond Example.orderQuery).out =
        .ret ({ Orders := [] }, some ⟨"order not found"⟩) :=
  ⟨(GetOrders_vendor_message Example.orderEnv Example.billingServerRefusingList
      Example.orderQuery ⟨false, "not authorized", ⟨⟨[]⟩⟩⟩ rfl).1 rfl,
    ((GetOrders_vendor_message Example.orderEnv Example.billingServerRefusingSecond
      Example.orderQuery ⟨true, "", ⟨⟨Example.listedOrders⟩⟩⟩ rfl).2 2 { OrderId := "main-2" }
      ⟨false, "order not found", ⟨⟨[]⟩⟩⟩ rfl (by decide) rfl
      (fun i row' hi h => by
        obtain rfl : i = 0 := by omega
        exact ⟨_, rfl, rfl⟩)
      rfl rfl).1⟩

/-- C10: when the list call and every detail call succeed, `GetOrders` issues the list
request and one detail request per listed order, and returns with a nil error exactly one
neutral order per vendor sub-order: the mapped sub-orders of the detail answers, concatenated
in listed-order then sub-order order (a listed order without sub-orders contributes nothing);
every mapped order has `OrderId` equal to the sub-order id and carries the sub-order's
main-order id under the key "main_order_id" of its extension map. -/
theorem GetOrders_one_order_per_sub_order (env : OrderEnv) (client : bssopenapi.Client)
    (req : cloud.GetOrdersRequest) (response : bssopenapi.QueryOrdersResponse)
    (details : Nat → List bssopenapi.Order)
    (hlist : client.QueryOrders (GetOrders.request env req) = (some response, none))
    (hsucc : response.Success = true)
    (hdetail : ∀ i row, response.Data.OrderList.Order[i]? = some row →
      ∃ rsp, client.GetOrderDetail i ⟨"https", row.OrderId⟩ = (some rsp, none) ∧
        rsp.Success = true ∧ rsp.Data.OrderList.Order = details i) :
    GetOrders env client req =
        ⟨.queryOrders (GetOrders.request env req) ::
            response.Data.OrderList.Order.map (fun r => .getOrderDetail ⟨"https", r.OrderId⟩),
          .ret (cloud.GetOrdersResponse.mk (List.map (GetOrders.conv env)
            ((List.range response.Data.OrderList.Order.length).map details).flatten), none)⟩ ∧
      (((List.range response.Data.OrderList.Order.length).map details).flatten.map
          (GetOrders.conv env)).length =
        (((List.range response.Data.OrderList.Order.length).map details).map List.length).sum ∧
      ∀ subOrder : bssopenapi.Order,
        (GetOrders.conv env subOrder).OrderId = subOrder.SubOrderId ∧
          (GetOrders.conv env subOrder).Extend.lookup "main_order_id" =
            some subOrder.OrderId := by
  refine ⟨?_, by rw [List.length_map, List.length_flatten], fun subOrder => ⟨rfl, rfl⟩⟩
  by_cases hne : response.Data.OrderList.Order = []
  · simp [GetOrders, hlist, hsucc, hne]
  · rw [GetOrders_of_listed env client req response hlist hsucc hne,
      GetOrders.loop_succeeds env client response.Data.OrderList.Order 0 [] details
        (fun i row h => by simpa [GetOrders.detailReq] using hdetail i row h)]
    simp [Run.after, GetOrders.detailReq]

/-- C10, witness: two listed orders, the first with two sub-orders and the second with one,
give three neutral orders in that order. -/
theorem GetOrders_one_order_per_sub_order_witness :
    (GetOrders Example.orderEnv Example.billingServer Example.orderQuery).out =
      .ret (cloud.GetOrdersResponse.mk (List.map (GetOrders.conv Example.orderEnv)
        (Example.subOrders "main-1" ++ Example.subOrders "main-2")), none) :=
  congrArg Run.out
    (GetOrders_one_order_per_sub_order Example.orderEnv Example.billingServer
      Example.orderQuery ⟨true, "", ⟨⟨Example.listedOrders⟩⟩⟩
      (fun i => Example.subOrders (if i = 0 then "main-1" else "main-2")) rfl rfl
      (fun i row h => by
        have hi : i = 0 ∨ i = 1 := by
          have : i < 2 := by
            by_contra hge
            have : Example.listedOrders[i]? = none :=
              List.getElem?_eq_none (by simp [Example.listedOrders]; omega)
            simp [this] at h
          omega
        rcases hi with rfl | rfl
        · obtain rfl : row = { OrderId := "main-1" } := by
            simpa [Example.listedOrders] using h.symm
          exact ⟨_, rfl, rfl, rfl⟩
        · obtain rfl : row = { OrderId := "main-2" } := by
            simpa [Example.listedOrders] using h.symm
          exact ⟨_, rfl, rfl, rfl⟩)).1

end alibaba

/-! ## Password character classes -/

namespace validation

theorem numberMap_eq : numberMap = [49, 50, 51, 52, 53, 54, 55, 56, 57, 48] := by decide

theorem upperLetterMap_eq :
    upperLetterMap = [65, 66, 67, 68, 69, 70, 71, 72, 73, 74, 75, 76, 77, 78, 79, 80, 81, 82,
      83, 84, 85, 86, 87, 88, 89, 90] := by decide

theorem lowerLetterMap_eq :
    lowerLetterMap = [97, 98, 99, 100, 101, 102, 103, 104, 105, 106, 107, 108, 109, 110, 111,
      112, 113, 114, 115, 116, 117, 118, 119, 120, 121, 122] := by decide

theorem mem_numberMap (c : Nat) : c ∈ numberMap ↔ 48 ≤ c ∧ c ≤ 57 := by
  rw [numberMap_eq]
  simp only [List.mem_cons, List.mem_nil_iff, or_false]
  omega

theorem mem_upperLetterMap (c : Nat) : c ∈ upperLetterMap ↔ 65 ≤ c ∧ c ≤ 90 := by
  rw [upperLetterMap_eq]
  simp only [List.mem_cons, List.mem_nil_iff, or_false]
  omega

theorem mem_lowerLetterMap (c : Nat) : c ∈ lowerLetterMap ↔ 97 ≤ c ∧ c ≤ 122 := by
  rw [lowerLetterMap_eq]
  simp only [List.mem_cons, List.mem_nil_iff, or_false]
  omega

/-- A counter that goes from 0 to 1 at the first byte of its class and then stays. -/
theorem foldl_mark (p : Nat → Prop) [DecidablePred p] (l : List Nat) :
    ∀ n : Nat, n = 0 ∨ n = 1 →
      l.foldl (fun n c => if p c ∧ n = 0 then 1 else n) n =
        if n = 1 ∨ l.any (fun c => decide (p c)) = true then 1 else 0 := by
  induction l with
  | nil => intro n hn; rcases hn with rfl | rfl <;> simp
  | cons c l ih =>
    intro n hn
    rw [List.foldl_cons, ih _ (by split <;> simp [hn])]
    rcases hn with rfl | rfl
    · by_cases hc : p c <;> simp [hc]
    · simp

theorem step_fields (t : Types) (c : Nat) :
    validateCharacterTypeGT3.step t c =
      ⟨if c ∈ numberMap ∧ t.numType = 0 then 1 else t.numType,
       if c ∈ upperLetterMap ∧ t.upperLetterType = 0 then 1 else t.upperLetterType,
       if c ∈ lowerLetterMap ∧ t.loweLetterType = 0 then 1 else t.loweLetterType,
       if c ∈ specialCharMap ∧ t.specialChatType = 0 then 1 else t.specialChatType⟩ := by
  unfold validateCharacterTypeGT3.step
  by_cases h1 : c ∈ numberMap ∧ t.numType = 0 <;>
  by_cases h2 : c ∈ upperLetterMap ∧ t.upperLetterType = 0 <;>
  by_cases h3 : c ∈ lowerLetterMap ∧ t.loweLetterType = 0 <;>
  by_cases h4 : c ∈ specialCharMap ∧ t.specialChatType = 0 <;>
  simp [h1, h2, h3, h4]

theorem foldl_step_fields (l : List Nat) :
    ∀ t : Types, l.foldl validateCharacterTypeGT3.step t =
      ⟨l.foldl (fun n c => if c ∈ numberMap ∧ n = 0 then 1 else n) t.numType,
       l.foldl (fun n c => if c ∈ upperLetterMap ∧ n = 0 then 1 else n) t.upperLetterType,
       l.foldl (fun n c => if c ∈ lowerLetterMap ∧ n = 0 then 1 else n) t.loweLetterType,
       l.foldl (fun n c => if c ∈ specialCharMap ∧ n = 0 then 1 else n) t.specialChatType⟩ := by
  induction l with
  | nil => intro t; rfl
  | cons c l ih => intro t; rw [List.foldl_cons, ih, step_fields]; rfl

theorem validate_eq_classes (field : List Nat) :
    validateCharacterTypeGT3 field = decide (3 ≤ classesCovered field) := by
  unfold validateCharacterTypeGT3 classesCovered
  simp only [foldl_step_fields, foldl_mark _ field 0 (Or.inl rfl)]
  simp only [mem_numberMap, mem_upperLetterMap, mem_lowerLetterMap, specialCharMap]
  simp

end validation

namespace validation

theorem any_congr_mem (p : Nat → Bool) (f o : List Nat) (h : ∀ c, c ∈ f ↔ c ∈ o) :
    f.any p = o.any p := by
  rw [Bool.eq_iff_iff]
  simp only [List.any_eq_true]
  constructor
  · rintro ⟨c, hc, hp⟩; exact ⟨c, (h c).mp hc, hp⟩
  · rintro ⟨c, hc, hp⟩; exact ⟨c, (h c).mpr hc, hp⟩

theorem any_filter_of_imp (p q : Nat → Bool) (f : List Nat) (h : ∀ c, p c = true → q c = true) :
    (f.filter q).any p = f.any p := by
  rw [Bool.eq_iff_iff]
  simp only [List.any_eq_true, List.mem_filter]
  constructor
  · rintro ⟨c, ⟨hc, _⟩, hp⟩; exact ⟨c, hc, hp⟩
  · rintro ⟨c, hc, hp⟩; exact ⟨c, ⟨hc, h c hp⟩, hp⟩

/-- C16: for every byte sequence `field` (the bytes of the validated string),
`validateCharacterTypeGT3` accepts exactly when the bytes touch at least three of the four
classes digits `0-9`, upper-case `A-Z`, lower-case `a-z` and the listed special characters.
The verdict depends only on which bytes occur (not on length, order or repetition), and bytes
outside the four classes do not count: removing them leaves the verdict unchanged. -/
theorem validateCharacterTypeGT3_three_classes (field : List Nat) :
    (validateCharacterTypeGT3 field = true ↔ 3 ≤ classesCovered field) ∧
      (∀ other : List Nat, (∀ c, c ∈ field ↔ c ∈ other) →
        validateCharacterTypeGT3 other = validateCharacterTypeGT3 field) ∧
      validateCharacterTypeGT3 (field.filter inSomeClass) = validateCharacterTypeGT3 field := by
  refine ⟨?_, ?_, ?_⟩
  · rw [validate_eq_classes]; simp
  · intro other h
    rw [validate_eq_classes, validate_eq_classes]
    unfold classesCovered
    rw [any_congr_mem _ field other h, any_congr_mem _ field other h,
      any_congr_mem _ field other h, any_congr_mem _ field other h]
  · rw [validate_eq_classes, validate_eq_classes]
    unfold classesCovered
    rw [any_filter_of_imp _ inSomeClass field, any_filter_of_imp _ inSomeClass field,
      any_filter_of_imp _ inSomeClass field, any_filter_of_imp _ inSomeClass field]
    all_goals
      intro c hc
      simp only [inSomeClass, decide_eq_true_eq] at hc ⊢
      tauto

/-- C16, witness: the strings of the test table — digits, upper-case and lower-case letters
together are accepted; digits alone, and digits with special characters, are rejected; a
permutation with repetitions of an accepted string is accepted. -/
theorem validateCharacterTypeGT3_three_classes_witness :
    validateCharacterTypeGT3 (bytesOf "1234567890aaaaaaaaaaAAAAAAAAAA") = true ∧
      ¬ validateCharacterTypeGT3 (bytesOf "1234567890") = true ∧
      ¬ validateCharacterTypeGT3 (bytesOf "1234567890??????????") = true ∧
      validateCharacterTypeGT3 (bytesOf "aA1") = validateCharacterTypeGT3 (bytesOf "1Aa1A") :=
  ⟨(validateCharacterTypeGT3_three_classes _).1.mpr (by decide),
    fun h => absurd ((validateCharacterTypeGT3_three_classes _).1.mp h) (by decide),
    fun h => absurd ((validateCharacterTypeGT3_three_classes _).1.mp h) (by decide),
    ((validateCharacterTypeGT3_three_classes (bytesOf "1Aa1A")).2.1 (bytesOf "aA1")
      (by
        intro c
        rw [show bytesOf "1Aa1A" = [49, 65, 97, 49, 65] by decide,
          show bytesOf "aA1" = [97, 65, 49] by decide]
        simp only [List.mem_cons, List.mem_nil_iff, or_false]
        omega))⟩

end validation

/-! ## Instance mapping: `generateInstances` -/

namespace alibaba

theorem intercalate_go_eq (s : String) (l : List String) :
    ∀ acc : String, String.intercalate.go acc s l =
      acc ++ l.foldr (fun a r => s ++ a ++ r) "" := by
  induction l with
  | nil => intro acc; simp [String.intercalate.go]
  | cons a l ih =>
    intro acc
    simp [String.intercalate.go, ih, String.append_assoc]

theorem commaJoin_cons (a : String) (l : List String) :
    commaJoin (a :: l) = a ++ l.foldr (fun b r => "," ++ b ++ r) "" := by
  induction l generalizing a with
  | nil => simp [commaJoin]
  | cons b l ih => simp [commaJoin, ih, String.append_assoc]

/-- Go `strings.Join(elems, ",")`, as used by `generateInstances`, is the comma-join. -/
theorem intercalate_eq_commaJoin (l : List String) : ",".intercalate l = commaJoin l := by
  cases l with
  | nil => rfl
  | cons a l => rw [commaJoin_cons, String.intercalate, intercalate_go_eq]

/-- C12: for every list of vendor instances `generateInstances` returns one neutral instance
per vendor instance, in the same order, whose `Id` is the vendor id, whose `Provider` is
"AlibabaCloud", whose `IpInner` is the comma-join of the private addresses in vendor order
(the empty string when there is none) and whose `IpOuter` is the first public address, or the
empty string when there is none; an instance with the private addresses 10.0.0.1, 10.0.0.2,
10.0.0.3 and no public address gets `IpInner = "10.0.0.1,10.0.0.2,10.0.0.3"` and
`IpOuter = ""`. -/
theorem generateInstances_addresses (cloudInstance : List ecs.Instance) (inst : ecs.Instance) :
    (generateInstances cloudInstance).length = cloudInstance.length ∧
      (generateInstances cloudInstance).map (fun o => (o.Id, o.Provider, o.IpInner, o.IpOuter)) =
        cloudInstance.map (fun i =>
          (i.InstanceId, "AlibabaCloud", commaJoin i.VpcAttributes.PrivateIpAddress.IpAddress,
            match i.PublicIpAddress.IpAddress with
            | [] => ""
            | ip :: _ => ip)) ∧
      commaJoin [] = "" ∧
      (generateInstances
          [{ inst with
              PublicIpAddress := ⟨[]⟩
              VpcAttributes := { inst.VpcAttributes with
                PrivateIpAddress := ⟨["10.0.0.1", "10.0.0.2", "10.0.0.3"]⟩ } }]).map
          (fun o => (o.IpInner, o.IpOuter)) = [("10.0.0.1,10.0.0.2,10.0.0.3", "")] := by
  refine ⟨by simp [generateInstances], ?_, rfl, ?_⟩
  · simp only [generateInstances, List.map_map]
    apply List.map_congr_left
    intro i _
    simp only [Function.comp, intercalate_eq_commaJoin, CloudName, Prod.mk.injEq, true_and]
    cases h : i.PublicIpAddress.IpAddress <;> simp
  · simp only [generateInstances, List.map_cons, List.map_nil, intercalate_eq_commaJoin]
    simp [commaJoin]

end alibaba

/-! ## Security-group rules: peer fields by direction -/

theorem convAll_getElem? {ρ σ : Type} (f : ρ → Option σ) :
    ∀ (rs : List ρ) (ss : List σ), convAll f rs = some ss →
      ∀ (i : Nat) (r : ρ), rs[i]? = some r → ∃ s, ss[i]? = some s ∧ f r = some s := by
  intro rs
  induction rs with
  | nil => intro ss _ i r hr; simp at hr
  | cons r0 rs ih =>
    intro ss h i r hr
    unfold convAll at h
    split at h
    · cases h
    · rename_i s0 hs0
      split at h
      · cases h
      · rename_i ss' hss
        cases h
        cases i with
        | zero =>
          simp only [List.getElem?_cons_zero, Option.some.injEq] at hr
          subst hr
          exact ⟨s0, by simp, hs0⟩
        | succ i =>
          simp only [List.getElem?_cons_succ] at hr ⊢
          exact ih ss' hss i r hr

namespace alibaba

/-- C13: the peer triple of a mapped permission record follows its direction.  For
direction "ingress" and present source fields the rule carries
`(SourceGroupId, SourceCidrIp, SourcePrefixListId)` whatever the three `Dest*` fields are —
present, absent or any value; for direction "egress" it carries
`(DestGroupId, DestCidrIp, DestPrefixListId)` whatever the `Source*` fields are.  More
generally the whole outcome of mapping an ingress record is unchanged when its `Dest*` fields
are replaced, and that of an egress record when its `Source*` fields are replaced. -/
theorem DescribeGroupRules_peer_by_direction
    (vpcId securityGroupId portRange ipProtocol createTime g c p : String)
    (x y z : Option String)
    (permissions : Option ecsClient.DescribeSecurityGroupAttributeResponseBodyPermissions)
    (body : ecsClient.DescribeSecurityGroupAttributeResponseBody)
    (rule : ecsClient.DescribeSecurityGroupAttributeResponseBodyPermissionsPermission) :
    DescribeGroupRules.conv ⟨some vpcId, some securityGroupId, permissions⟩
        (some ⟨some "ingress", some g, some c, some p, x, y, z,
          some portRange, some ipProtocol, some createTime⟩) =
      some ⟨vpcId, securityGroupId, portRange, ipProtocol, "ingress", g, c, p, createTime⟩ ∧
    DescribeGroupRules.conv ⟨some vpcId, some securityGroupId, permissions⟩
        (some ⟨some "egress", x, y, z, some g, some c, some p,
          some portRange, some ipProtocol, some createTime⟩) =
      some ⟨vpcId, securityGroupId, portRange, ipProtocol, "egress", g, c, p, createTime⟩ ∧
    DescribeGroupRules.conv body
        (some { rule with Direction := some "ingress",
                          DestGroupId := x, DestCidrIp := y, DestPrefixListId := z }) =
      DescribeGroupRules.conv body (some { rule with Direction := some "ingress" }) ∧
    DescribeGroupRules.conv body
        (some { rule with Direction := some "egress",
                          SourceGroupId := x, SourceCidrIp := y, SourcePrefixListId := z }) =
      DescribeGroupRules.conv body (some { rule with Direction := some "egress" }) := by
  refine ⟨rfl, rfl, rfl, rfl⟩

/-- The answer of `DescribeGroupRules` when the call succeeds with body and permission list
present and every record maps. -/
theorem DescribeGroupRules_of_mapped (call : ecsClient.DescribeSecurityGroupAttributeCall)
    (req : cloud.DescribeGroupRulesRequest)
    (body : ecsClient.DescribeSecurityGroupAttributeResponseBody)
    (permission : List (Option ecsClient.DescribeSecurityGroupAttributeResponseBodyPermissionsPermission))
    (rules : List cloud.SecurityGroupRule)
    (hcall : call ⟨req.RegionId, req.SecurityGroupId⟩ = (some ⟨some body⟩, none))
    (hperm : body.Permissions = some ⟨permission⟩)
    (hconv : convAll (DescribeGroupRules.conv body) permission = some rules) :
    DescribeGroupRules call req =
      ⟨[⟨req.RegionId, req.SecurityGroupId⟩], .ret ({ Rules := rules }, none)⟩ := by
  simp [DescribeGroupRules, DescribeGroupRules.request, hcall, DescribeGroupRules.present,
    hperm, hconv]

end alibaba

namespace alibaba

theorem DescribeGroupRules.conv_unknown_direction
    (body : ecsClient.DescribeSecurityGroupAttributeResponseBody)
    (rule : ecsClient.DescribeSecurityGroupAttributeResponseBodyPermissionsPermission)
    (out : cloud.SecurityGroupRule) (d : String) (hd : rule.Direction = some d)
    (h1 : d ≠ "ingress") (h2 : d ≠ "egress")
    (hc : DescribeGroupRules.conv body (some rule) = some out) :
    out.Direction = d ∧ out.GroupId = "" ∧ out.CidrIp = "" ∧ out.PrefixListId = "" := by
  simp only [DescribeGroupRules.conv, hd, DirectionIn, DirectionOut, h1, h2, if_false,
    Option.bind_eq_bind, Option.some_bind, Option.pure_def, Option.bind_eq_some] at hc
  obtain ⟨_, _, _, _, _, _, _, _, _, _, hc⟩ := hc
  simp only [Option.some.injEq] at hc
  subst hc
  exact ⟨rfl, rfl, rfl, rfl⟩

theorem convAll_of_forall {ρ σ : Type} (f : ρ → Option σ) :
    ∀ rs : List ρ, (∀ r ∈ rs, ∃ s, f r = some s) → ∃ ss, convAll f rs = some ss := by
  intro rs
  induction rs with
  | nil => intro _; exact ⟨[], rfl⟩
  | cons r rs ih =>
    intro h
    obtain ⟨s, hs⟩ := h r (List.mem_cons_self r rs)
    obtain ⟨ss, hss⟩ := ih (fun r' hr' => h r' (List.mem_cons_of_mem r hr'))
    exact ⟨s :: ss, by simp [convAll, hs, hss]⟩

/-- A record whose read pointers are set maps, in an answer whose VPC id and group id are
set. -/
theorem DescribeGroupRules.conv_of_pointersSet
    (body : ecsClient.DescribeSecurityGroupAttributeResponseBody)
    (rule : Option ecsClient.DescribeSecurityGroupAttributeResponseBodyPermissionsPermission)
    (vpcId securityGroupId : String) (hvpc : body.VpcId = some vpcId)
    (hsg : body.SecurityGroupId = some securityGroupId)
    (hset : DescribeGroupRules.pointersSet rule = true) :
    ∃ out, DescribeGroupRules.conv body rule = some out := by
  cases rule with
  | none => simp [DescribeGroupRules.pointersSet] at hset
  | some rule =>
    cases hd : rule.Direction with
    | none => simp [DescribeGroupRules.pointersSet, hd] at hset
    | some d =>
      simp only [DescribeGroupRules.pointersSet, hd, Bool.and_eq_true,
        Option.isSome_iff_exists] at hset
      obtain ⟨⟨⟨⟨pr, hpr⟩, ⟨ip, hip⟩⟩, ⟨ct, hct⟩⟩, hpeer⟩ := hset
      by_cases h1 : d = DirectionIn
      · rw [if_pos h1] at hpeer
        simp only [Bool.and_eq_true, Option.isSome_iff_exists] at hpeer
        obtain ⟨⟨⟨g, hg⟩, ⟨c, hc⟩⟩, ⟨p, hp⟩⟩ := hpeer
        simp [DescribeGroupRules.conv, hd, h1, hvpc, hsg, hpr, hip, hct, hg, hc, hp]
      · rw [if_neg h1] at hpeer
        by_cases h2 : d = DirectionOut
        · rw [if_pos h2] at hpeer
          simp only [Bool.and_eq_true, Option.isSome_iff_exists] at hpeer
          obtain ⟨⟨⟨g, hg⟩, ⟨c, hc⟩⟩, ⟨p, hp⟩⟩ := hpeer
          subst h2
          simp [DescribeGroupRules.conv, hd, h1, hvpc, hsg, hpr, hip, hct, hg, hc, hp]
        · simp [DescribeGroupRules.conv, hd, h1, h2, hvpc, hsg, hpr, hip, hct]

/-- C14 (amended): when the attribute call succeeds with the body, its VPC id, its group id
and its permission list present, and every permission record has the pointers set that the
rule mapper dereferences (the record, its direction, port range, protocol and creation time,
and the source fields of an "ingress" record, the destination fields of an "egress" record),
`DescribeGroupRules` returns a nil error and as many rules as there are permission records;
the rule of a record whose direction `d` is neither "ingress" nor "egress" keeps `d` as its
direction and has the empty peer triple (`GroupId = ""`, `CidrIp = ""`,
`PrefixListId = ""`).  Such a record maps as soon as its port range, protocol and creation
time and the body's VPC and group ids are set: none of its six peer fields is read. -/
theorem DescribeGroupRules_unknown_direction
    (call : ecsClient.DescribeSecurityGroupAttributeCall)
    (req : cloud.DescribeGroupRulesRequest)
    (body : ecsClient.DescribeSecurityGroupAttributeResponseBody)
    (permission : List (Option ecsClient.DescribeSecurityGroupAttributeResponseBodyPermissionsPermission))
    (vpcId securityGroupId : String)
    (hcall : call ⟨req.RegionId, req.SecurityGroupId⟩ = (some ⟨some body⟩, none))
    (hperm : body.Permissions = some ⟨permission⟩)
    (hvpc : body.VpcId = some vpcId) (hsg : body.SecurityGroupId = some securityGroupId)
    (hset : ∀ r ∈ permission, DescribeGroupRules.pointersSet r = true) :
    ∃ rules : List cloud.SecurityGroupRule,
      DescribeGroupRules call req =
        ⟨[⟨req.RegionId, req.SecurityGroupId⟩], .ret ({ Rules := rules }, none)⟩ ∧
      rules.length = permission.length ∧
      (∀ (i : Nat) (rule : ecsClient.DescribeSecurityGroupAttributeResponseBodyPermissionsPermission)
          (d : String),
        permission[i]? = some (some rule) → rule.Direction = some d →
        d ≠ "ingress" → d ≠ "egress" →
        ∃ out, rules[i]? = some out ∧ out.Direction = d ∧ out.GroupId = "" ∧
          out.CidrIp = "" ∧ out.PrefixListId = "") ∧
      (∀ (d vpcId securityGroupId portRange ipProtocol createTime : String)
          (x1 x2 x3 x4 x5 x6 : Option String)
          (ps : Option ecsClient.DescribeSecurityGroupAttributeResponseBodyPermissions),
        d ≠ "ingress" → d ≠ "egress" →
        DescribeGroupRules.conv ⟨some vpcId, some securityGroupId, ps⟩
            (some ⟨some d, x1, x2, x3, x4, x5, x6, some portRange, some ipProtocol,
              some createTime⟩) =
          some ⟨vpcId, securityGroupId, portRange, ipProtocol, d, "", "", "", createTime⟩) := by
  obtain ⟨rules, hconv⟩ := convAll_of_forall (DescribeGroupRules.conv body) permission
    (fun r hr => DescribeGroupRules.conv_of_pointersSet body r vpcId securityGroupId hvpc hsg
      (hset r hr))
  refine ⟨rules, DescribeGroupRules_of_mapped call req body permission rules hcall hperm hconv,
    convAll_length _ _ _ hconv, ?_, ?_⟩
  · intro i rule d hi hd h1 h2
    obtain ⟨out, hout, hc⟩ := convAll_getElem? _ _ _ hconv i (some rule) hi
    exact ⟨out, hout, DescribeGroupRules.conv_unknown_direction body rule out d hd h1 h2 hc⟩
  · intro d vpcId securityGroupId portRange ipProtocol createTime x1 x2 x3 x4 x5 x6 ps h1 h2
    simp [DescribeGroupRules.conv, DirectionIn, DirectionOut, h1, h2]

/-- C14, witness: of three permission records the second has the direction "all" and no peer
field; three rules come back with a nil error, the second with direction "all" and the empty
peer triple. -/
theorem DescribeGroupRules_unknown_direction_witness :
    ∃ rules : List cloud.SecurityGroupRule,
      DescribeGroupRules Example.groupAttributeServer ⟨"cn-beijing", "sg-0"⟩ =
        ⟨[⟨"cn-beijing", "sg-0"⟩], .ret ({ Rules := rules }, none)⟩ ∧
      rules.length = 3 ∧
      ∃ out, rules[1]? = some out ∧ out.Direction = "all" ∧ out.GroupId = "" ∧
        out.CidrIp = "" ∧ out.PrefixListId = "" :=
  let ⟨rules, h1, h2, h3, _⟩ :=
    DescribeGroupRules_unknown_direction Example.groupAttributeServer ⟨"cn-beijing", "sg-0"⟩
      Example.groupAttribute _ "vpc-1" "sg-0" rfl rfl rfl rfl (by decide)
  ⟨rules, h1, h2, h3 1 _ "all" rfl rfl (by decide) (by decide)⟩

/-- C14, counterexample: the only permission record of the answer has the direction "all",
neither "ingress" nor "egress", and no port range; `DescribeGroupRules` dereferences the
absent port range and ends in a panic instead of emitting a rule with a nil error. -/
theorem DescribeGroupRules_unknown_direction_nil_port_range :
    Example.groupAttributeNoPortRange.Permissions =
        some ⟨[some ⟨some "all", none, none, none, none, none, none,
          none, some "ALL", some "2021-11-02T00:00:00Z"⟩]⟩ ∧
      "all" ≠ DirectionIn ∧ "all" ≠ DirectionOut ∧
      DescribeGroupRules Example.groupAttributeNoPortRangeServer ⟨"cn-beijing", "sg-0"⟩ =
        ⟨[⟨"cn-beijing", "sg-0"⟩], .panicked⟩ := by
  decide

end alibaba

/-! ## Billing: the usage window -/

namespace alibaba

theorem hoursExceedTwentyYears_iff (e s : Int) :
    hoursExceedTwentyYears (timeSub e s) = true ↔
      e - s ≥ 24 * 365 * 20 * 3600000000000 + 53 := by
  unfold hoursExceedTwentyYears timeSub
  rw [decide_eq_true_eq]
  omega

theorem whole_seconds_window (e s : Int) (hs : (1000000000 : Int) ∣ s)
    (he : (1000000000 : Int) ∣ e) :
    e - s ≥ 24 * 365 * 20 * 3600000000000 + 53 ↔ e - s > 24 * 365 * 20 * 3600000000000 := by
  obtain ⟨a, ha⟩ := hs
  obtain ⟨b, hb⟩ := he
  omega

/-- C11 (amended): for every sub-order mapped by `GetOrders`, `UsageStartTime` is the parsed
usage start; `UsageEndTime` is the sentinel 2038-01-01T00:00:00 UTC (2145916800 s after the
epoch) when the subscription type is pay-as-you-go and the usage window (parsed end minus
parsed start) is at least 24*365*20 hours and 53 nanoseconds, and the parsed usage end
unmodified otherwise; for timestamps of whole seconds "at least 20 years and 53 ns" is the
same as "more than 20 years". -/
theorem GetOrders_usage_end (env : OrderEnv) (subOrder : bssopenapi.Order) :
    (GetOrders.conv env subOrder).UsageStartTime =
        env.timeParse "2006-01-02T15:04:05Z" subOrder.UsageStartTime ∧
      (GetOrders.conv env subOrder).UsageEndTime =
        (if subOrder.SubscriptionType = env.PayAsYouGo ∧
            env.timeParse "2006-01-02T15:04:05Z" subOrder.UsageEndTime -
              env.timeParse "2006-01-02T15:04:05Z" subOrder.UsageStartTime ≥
                24 * 365 * 20 * 3600000000000 + 53 then
          2145916800 * 1000000000
        else env.timeParse "2006-01-02T15:04:05Z" subOrder.UsageEndTime) ∧
      ((1000000000 : Int) ∣ env.timeParse "2006-01-02T15:04:05Z" subOrder.UsageStartTime →
        (1000000000 : Int) ∣ env.timeParse "2006-01-02T15:04:05Z" subOrder.UsageEndTime →
        (env.timeParse "2006-01-02T15:04:05Z" subOrder.UsageEndTime -
            env.timeParse "2006-01-02T15:04:05Z" subOrder.UsageStartTime ≥
              24 * 365 * 20 * 3600000000000 + 53 ↔
          env.timeParse "2006-01-02T15:04:05Z" subOrder.UsageEndTime -
            env.timeParse "2006-01-02T15:04:05Z" subOrder.UsageStartTime >
              24 * 365 * 20 * 3600000000000)) := by
  refine ⟨rfl, ?_, fun h1 h2 => whole_seconds_window _ _ h1 h2⟩
  simp only [GetOrders.conv, hoursExceedTwentyYears_iff, usageEndSentinel]

/-- C11, witness: a pay-as-you-go sub-order used from 2021-01-01 to 2051-01-01 (30 years)
gets the sentinel as its usage end; one used from 2021-01-01 to 2022-01-01 keeps its usage
end; both keep their usage start. -/
theorem GetOrders_usage_end_witness :
    (GetOrders.conv Example.orderEnvCalendar
        (Example.usageSubOrder "2021-01-01T00:00:00Z" "2051-01-01T00:00:00Z")).UsageEndTime =
        2145916800 * 1000000000 ∧
      (GetOrders.conv Example.orderEnvCalendar
        (Example.usageSubOrder "2021-01-01T00:00:00Z" "2022-01-01T00:00:00Z")).UsageEndTime =
        1640995200 * 1000000000 ∧
      (GetOrders.conv Example.orderEnvCalendar
        (Example.usageSubOrder "2021-01-01T00:00:00Z" "2051-01-01T00:00:00Z")).UsageStartTime =
        1609459200 * 1000000000 :=
  ⟨(GetOrders_usage_end Example.orderEnvCalendar _).2.1.trans (by decide),
    (GetOrders_usage_end Example.orderEnvCalendar _).2.1.trans (by decide),
    (GetOrders_usage_end Example.orderEnvCalendar _).1.trans (by decide)⟩

/-- C11, counterexample: a pay-as-you-go sub-order used from 2021-01-01T00:00:00Z to
2040-12-27T00:00:00.000000001Z has a usage window of 24*365*20 hours and one nanosecond, more
than 20 years, and keeps its usage end: `Hours()` rounds the window to 175200.0, which is not
greater than `24*365*20`. -/
theorem GetOrders_usage_end_one_nanosecond :
    (Example.usageSubOrder "2021-01-01T00:00:00Z" "2040-12-27T00:00:00.000000001Z").SubscriptionType
        = Example.orderEnvCalendar.PayAsYouGo ∧
      Example.orderEnvCalendar.timeParse "2006-01-02T15:04:05Z" "2040-12-27T00:00:00.000000001Z" -
          Example.orderEnvCalendar.timeParse "2006-01-02T15:04:05Z" "2021-01-01T00:00:00Z" >
        24 * 365 * 20 * 3600000000000 ∧
      (GetOrders.conv Example.orderEnvCalendar
        (Example.usageSubOrder "2021-01-01T00:00:00Z"
          "2040-12-27T00:00:00.000000001Z")).UsageEndTime =
        2240179200 * 1000000000 + 1 ∧
      (GetOrders.conv Example.orderEnvCalendar
        (Example.usageSubOrder "2021-01-01T00:00:00Z"
          "2040-12-27T00:00:00.000000001Z")).UsageEndTime ≠ usageEndSentinel := by
  decide

end alibaba

/-! ## Subnets: the `IsDefault` flag -/

namespace alibaba

/-- C15 (amended): a vendor subnet record whose pointers are all set is mapped by
`DescribeSwitches` and by `GetSwitch` with `IsDefault = 0` when the vendor flag is false and
`IsDefault = 1` when it is true; every record that is mapped has its flag set; a record whose
flag is absent (nil) is not mapped — the flag is dereferenced without a nil check, which is a
run-time panic. -/
theorem switch_is_default (flag : Bool)
    (vpcId vSwitchId vSwitchName status creationTime cidrBlock zoneId : String) (count : Int)
    (vswitch : Option vpcClient.DescribeVSwitchesResponseBodyVSwitchesVSwitch)
    (record : vpcClient.DescribeVSwitchesResponseBodyVSwitchesVSwitch)
    (body : vpcClient.DescribeVSwitchAttributesResponseBody) (switch : cloud.Switch) :
    DescribeSwitches.conv
        (some ⟨some vpcId, some vSwitchId, some vSwitchName, some flag, some count, some status,
          some creationTime, some cidrBlock, some zoneId⟩) =
      some ⟨vpcId, vSwitchId, vSwitchName, if flag then 1 else 0, count, status, creationTime,
        cidrBlock, zoneId⟩ ∧
    GetSwitch.conv
        ⟨some flag, some vpcId, some vSwitchId, some vSwitchName, some count, some status,
          some creationTime, some cidrBlock⟩ =
      some ⟨vpcId, vSwitchId, vSwitchName, if flag then 1 else 0, count, status, creationTime,
        cidrBlock, ""⟩ ∧
    (DescribeSwitches.conv vswitch = some switch →
      ∃ r b, vswitch = some r ∧ r.IsDefault = some b ∧ switch.IsDefault = if b then 1 else 0) ∧
    (GetSwitch.conv body = some switch →
      ∃ b, body.IsDefault = some b ∧ switch.IsDefault = if b then 1 else 0) ∧
    DescribeSwitches.conv (some { record with IsDefault := none }) = none ∧
    GetSwitch.conv { body with IsDefault := none } = none := by
  refine ⟨rfl, rfl, ?_, ?_, rfl, rfl⟩
  · intro h
    simp only [DescribeSwitches.conv, Option.bind_eq_bind, Option.pure_def,
      Option.bind_eq_some] at h
    obtain ⟨r, hr, b, hb, _, _, _, _, _, _, _, _, _, _, _, _, _, _, _, _, h⟩ := h
    simp only [Option.some.injEq] at h
    subst h
    exact ⟨r, b, hr, hb, rfl⟩
  · intro h
    simp only [GetSwitch.conv, Option.bind_eq_bind, Option.pure_def,
      Option.bind_eq_some] at h
    obtain ⟨b, hb, _, _, _, _, _, _, _, _, _, _, _, _, _, _, h⟩ := h
    simp only [Option.some.injEq] at h
    subst h
    exact ⟨b, hb, rfl⟩

/-- C15, witness: the default subnet maps to `IsDefault = 1`, a non-default one to
`IsDefault = 0`, in both operations. -/
theorem switch_is_default_witness :
    (∃ switch, DescribeSwitches.conv (some (Example.switchRecord (some true))) = some switch ∧
      switch.IsDefault = 1) ∧
    (∃ switch, DescribeSwitches.conv (some (Example.switchRecord (some false))) = some switch ∧
      switch.IsDefault = 0) :=
  ⟨⟨_, (switch_is_default true "vpc-1" "vsw-1" "subnet" "Available" "2021-11-01T00:00:00Z"
      "10.0.0.0/24" "cn-beijing-a" 250 none (Example.switchRecord none)
      ⟨none, none, none, none, none, none, none, none⟩
      ⟨"", "", "", 0, 0, "", "", "", ""⟩).1, rfl⟩,
   ⟨_, (switch_is_default false "vpc-1" "vsw-1" "subnet" "Available" "2021-11-01T00:00:00Z"
      "10.0.0.0/24" "cn-beijing-a" 250 none (Example.switchRecord none)
      ⟨none, none, none, none, none, none, none, none⟩
      ⟨"", "", "", 0, 0, "", "", "", ""⟩).1, rfl⟩⟩

/-- C15, counterexample: a subnet whose `IsDefault` flag is absent, all other fields being
set, is not mapped: `DescribeSwitches` and `GetSwitch` both end in a panic after their first
call instead of returning `IsDefault = 0`. -/
theorem switch_absent_flag_panics :
    DescribeSwitches.conv (some (Example.switchRecord none)) = none ∧
      DescribeSwitches 5 Example.switchServerNoFlag ⟨"vpc-1"⟩ =
        ⟨[⟨"vpc-1", 50, 1⟩], .panicked⟩ ∧
      GetSwitch Example.switchAttributeNoFlag ⟨"vsw-1"⟩ = ⟨[⟨"vsw-1"⟩], .panicked⟩ := by
  decide

/-! ## Batch create: the data disks -/

/-- C17: the behaviour of `BatchCreate` — the `RunInstances` request it sends and what it
returns — is the same for two `Params` values that differ only in `Disks.DataDisk`, for every
count `num`; the request carries no data disk at all, and it carries the system-disk category
and size, `Amount = MinAmount = num` and the tags of the neutral request (no tag list when
there is no tag). -/
theorem BatchCreate_ignores_data_disks (call : ecs.RunInstancesCall) (m : cloud.Params)
    (network : cloud.Network) (disks : cloud.Disks) (dataDisk : List cloud.DiskConf)
    (num : Int) :
    BatchCreate call
        { m with Disks := m.Disks.map (fun d => { d with DataDisk := dataDisk }) } num =
      BatchCreate call m num ∧
    ∃ request,
      BatchCreate.request { m with Network := some network, Disks := some disks } num =
        some request ∧
      (BatchCreate call { m with Network := some network, Disks := some disks } num).calls =
        [request] ∧
      request.DataDisk = none ∧
      request.SystemDiskCategory = disks.SystemDisk.Category ∧
      request.SystemDiskSize = strconvItoa disks.SystemDisk.Size ∧
      request.Amount = some num ∧ request.MinAmount = some num ∧
      request.Tag =
        (if m.Tags = [] then none
         else some (m.Tags.map fun tag => { Key := tag.Key, Value := tag.Value })) := by
  constructor
  · cases hd : m.Disks <;> cases hn : m.Network <;>
      simp [BatchCreate, BatchCreate.request, hd, hn]
  · refine ⟨_, rfl, ?_, rfl, rfl, rfl, rfl, rfl, ?_⟩
    · simp only [BatchCreate, BatchCreate.request, Option.bind_eq_bind, Option.some_bind,
        Option.pure_def]
      split <;> rfl
    · cases m.Tags <;> simp

end alibaba

/-! ## Non-termination of the paging loops -/

/-- On a transport that never fails and never passes the nil checks, the count-paged loop
uses up any step budget on requests for the same page. -/
theorem countPaging_absent {Q R ρ σ : Type} (request : Int → Q)
    (present : R → Option (Page ρ)) (conv : ρ → Option σ)
    (call : Nat → Q → R × Option GoError)
    (habsent : ∀ n q, (call n q).2 = none ∧ present (call n q).1 = none) :
    ∀ (fuel n : Nat) (page : Int) (acc : List σ),
      countPaging request present conv call fuel n page acc =
        ⟨List.replicate fuel (request page), .running⟩ := by
  intro fuel
  induction fuel with
  | zero => intro n page acc; rfl
  | succ fuel ih =>
    intro n page acc
    simp only [countPaging, (habsent n (request page)).1, (habsent n (request page)).2, ih,
      Run.after, List.replicate_succ]

namespace alibaba

theorem DescribeImages.loop_absent (call : ecsClient.DescribeImagesCall)
    (req : cloud.DescribeImagesRequest)
    (habsent : ∀ n q, DescribeImages.present (call n q).1 = none) :
    ∀ (fuel n : Nat) (page : Int) (images : List cloud.Image),
      DescribeImages.loop call req fuel n page images =
        ⟨List.replicate fuel (DescribeImages.request req page), .running⟩ := by
  intro fuel
  induction fuel with
  | zero => intro n page images; rfl
  | succ fuel ih =>
    intro n page images
    simp only [DescribeImages.loop, habsent n (DescribeImages.request req page), ih,
      Run.after, List.replicate_succ]

/-- C18: `DescribeVpcs` does not terminate on a transport that never fails and whose
responses lack the body or the record list (or are nil): for every step budget `fuel` the
loop is still running when the budget is used up, having requested page 1 `fuel` times.  The
same holds for `DescribeSwitches` and `DescribeSecurityGroups`, and for `DescribeImages`,
where it holds whether or not the calls fail, so also when every call fails with a response
without body. -/
theorem paging_never_returns (fuel : Nat) :
    (∀ (call : vpcClient.DescribeVpcsCall) (req : cloud.DescribeVpcsRequest),
      (∀ n q, (call n q).2 = none ∧
        ∀ body, (call n q).1 = some ⟨some body⟩ → body.Vpcs = none) →
      DescribeVpcs fuel call req =
        ⟨List.replicate fuel ⟨req.RegionId, 50, 1⟩, .running⟩) ∧
    (∀ (call : vpcClient.DescribeVSwitchesCall) (req : cloud.DescribeSwitchesRequest),
      (∀ n q, (call n q).2 = none ∧
        ∀ body, (call n q).1 = some ⟨some body⟩ → body.VSwitches = none) →
      DescribeSwitches fuel call req =
        ⟨List.replicate fuel ⟨req.VpcId, 50, 1⟩, .running⟩) ∧
    (∀ (call : ecsClient.DescribeSecurityGroupsCall) (req : cloud.DescribeSecurityGroupsRequest),
      (∀ n q, (call n q).2 = none ∧
        ∀ body, (call n q).1 = some ⟨some body⟩ → body.SecurityGroups = none) →
      DescribeSecurityGroups fuel call req =
        ⟨List.replicate fuel ⟨req.RegionId, req.VpcId, 50, 1⟩, .running⟩) ∧
    (∀ (call : ecsClient.DescribeImagesCall) (req : cloud.DescribeImagesRequest),
      (∀ n q body, (call n q).1 = some ⟨some body⟩ → body.Images = none) →
      DescribeImages fuel call req =
        ⟨List.replicate fuel ⟨req.RegionId, 50, 1⟩, .running⟩) := by
  refine ⟨?_, ?_, ?_, ?_⟩
  · intro call req h
    have hp : ∀ n q, (call n q).2 = none ∧ DescribeVpcs.present (call n q).1 = none := by
      intro n q
      refine ⟨(h n q).1, ?_⟩
      rcases hr : (call n q).1 with _ | ⟨_ | body⟩
      · rfl
      · rfl
      · simp [DescribeVpcs.present, (h n q).2 body hr]
    simp only [DescribeVpcs, countPaging_absent _ _ _ call hp, Run.mapRet]
    rfl
  · intro call req h
    have hp : ∀ n q, (call n q).2 = none ∧ DescribeSwitches.present (call n q).1 = none := by
      intro n q
      refine ⟨(h n q).1, ?_⟩
      rcases hr : (call n q).1 with _ | ⟨_ | body⟩
      · rfl
      · rfl
      · simp [DescribeSwitches.present, (h n q).2 body hr]
    simp only [DescribeSwitches, countPaging_absent _ _ _ call hp, Run.mapRet]
    rfl
  · intro call req h
    have hp : ∀ n q, (call n q).2 = none ∧
        DescribeSecurityGroups.present (call n q).1 = none := by
      intro n q
      refine ⟨(h n q).1, ?_⟩
      rcases hr : (call n q).1 with _ | ⟨_ | body⟩
      · rfl
      · rfl
      · simp [DescribeSecurityGroups.present, (h n q).2 body hr]
    simp only [DescribeSecurityGroups, countPaging_absent _ _ _ call hp, Run.mapRet]
    rfl
  · intro call req h
    have hp : ∀ n q, DescribeImages.present (call n q).1 = none := by
      intro n q
      rcases hr : (call n q).1 with _ | ⟨_ | body⟩
      · rfl
      · rfl
      · simp [DescribeImages.present, h n q body hr]
    simp only [DescribeImages, DescribeImages.loop_absent call req hp]
    rfl

/-- C18, witness: with a budget of 7 steps each of the four listings requests page 1 seven
times and is still running — on a VPC vendor that sends no body, a subnet vendor that sends no
record list, a security-group vendor that sends no response, and an image vendor whose every
call fails. -/
theorem paging_never_returns_witness :
    DescribeVpcs 7 Example.vpcServerNoBody ⟨"cn-beijing"⟩ =
        ⟨List.replicate 7 ⟨"cn-beijing", 50, 1⟩, .running⟩ ∧
      DescribeSwitches 7 Example.switchServerNoList ⟨"vpc-1"⟩ =
        ⟨List.replicate 7 ⟨"vpc-1", 50, 1⟩, .running⟩ ∧
      DescribeSecurityGroups 7 Example.groupServerNoResponse ⟨"cn-beijing", "vpc-1"⟩ =
        ⟨List.replicate 7 ⟨"cn-beijing", "vpc-1", 50, 1⟩, .running⟩ ∧
      DescribeImages 7 Example.imageServerFailing ⟨"cn-beijing"⟩ =
        ⟨List.replicate 7 ⟨"cn-beijing", 50, 1⟩, .running⟩ :=
  ⟨(paging_never_returns 7).1 Example.vpcServerNoBody ⟨"cn-beijing"⟩
      (fun _ _ => ⟨rfl, fun _ h => by cases h⟩),
    (paging_never_returns 7).2.1 Example.switchServerNoList ⟨"vpc-1"⟩
      (fun _ _ => ⟨rfl, fun _ h => by cases h; rfl⟩),
    (paging_never_returns 7).2.2.1 Example.groupServerNoResponse ⟨"cn-beijing", "vpc-1"⟩
      (fun _ _ => ⟨rfl, fun _ h => by cases h⟩),
    (paging_never_returns 7).2.2.2 Example.imageServerFailing ⟨"cn-beijing"⟩
      (fun _ _ _ h => by cases h)⟩

end alibaba

